import Mathlib

/-!
# Campaign orchestration (playcampaign.cpp): a shallow embedding

The file embeds the functions of `src/playcampaign.cpp`:
`store_carryover`, `play_replay`, `playsingle_scenario`, `playmp_scenario` and `play_game`.

Conventions of the embedding.

* The C++ code mutates a `saved_game`, talks to a display, a network layer, the file
  system and the running scenario controller.  The session state that this file reads
  and writes field by field is the structure `saved_game`; everything else (private
  members of collaborating objects, the user, the network, the running controller) lives
  in an abstract world `W`, and every collaborator call is a function of the record `Env W`.
* Every externally visible action (dialogs, saves, negotiation screens, scenario runs,
  calls of `report_victory`) is appended to `St.trace`, in program order.
* A C++ `int` is a 32-bit two's complement number.  Values of type `int` are kept in
  `Int`; every `int` operation of `store_carryover` is followed by `to_int`, which wraps
  the mathematical result into the range of `int` (what the compiled code does; the C++
  standard leaves signed overflow undefined), and the `size_t` expression for the bonus
  per turn is computed modulo 2^64 and then narrowed by `to_int`.
* `_("...")` (gettext) is modelled as the identity on the message id.
* Exceptions are values of `game_exception`; a function that can leave by an exception
  returns `Except game_exception _` next to the state reached.  The calls that can throw
  are the scenario resolver (`random_generate_scenario`, `read_map`,
  `random_generate_map`), the construction and run of a scenario controller,
  `maybe_linger` and `play_replay_level`; every other collaborator call is modelled as
  returning normally.
* `get_starting_pos()` is modelled as the member `starting_pos` of `saved_game`: the
  reference taken at the head of the loop body stays bound to that member.
-/

namespace Wesnoth

/-! ## Data model -/

/-- The enumeration LEVEL_RESULT: the outcome of running one scenario. -/
inductive LEVEL_RESULT where
  | NONE
  | VICTORY
  | DEFEAT
  | QUIT
  | OBSERVER_END
  | SKIP_TO_LINGER
  deriving DecidableEq, Repr

/-- The enumeration io_type_t: the topology of the session. -/
inductive io_type_t where
  | IO_NONE
  | IO_SERVER
  | IO_CLIENT
  deriving DecidableEq, Repr

/-- The campaign type of game_classification.  The source compares it with
`TEST` and `SCENARIO` only; the declaration itself lives in another file. -/
inductive CAMPAIGN_TYPE where
  | SCENARIO
  | MULTIPLAYER
  | TEST
  | TUTORIAL
  deriving DecidableEq, Repr

/-- The result of a multiplayer screen (mp::ui::result).  The source compares it with
`QUIT` only; every other value is kept as its ordinal. -/
inductive mp_ui_result where
  | QUIT
  | other (code : Nat)
  deriving DecidableEq, Repr

/-- A WML node: keyed attributes and keyed children.  Attribute values are kept in their
string form, which is what this file compares (`empty()`, `!= "null"`, `!= ""`). -/
inductive config where
  | mk (values : List (String × String)) (children : List (String × config))
  deriving Repr

/-- Attributes of a node. -/
def config.values : config → List (String × String)
  | .mk v _ => v

/-- Children of a node. -/
def config.children : config → List (String × config)
  | .mk _ c => c

/-- The node built by `config()`: no attribute, no child. -/
def config.blank : config := .mk [] []

/-- Reading `cfg[key]`: the stored value, or the blank value when the key is absent. -/
def config.get (c : config) (key : String) : String :=
  (c.values.lookup key).getD ""

/-- Replace the value stored under `key`, or add the pair when the key is absent. -/
def set_value (key val : String) : List (String × String) → List (String × String)
  | [] => [(key, val)]
  | (k, v) :: rest => if k = key then (key, val) :: rest else (k, v) :: set_value key val rest

/-- The assignment `cfg[key] = val`. -/
def config.set (c : config) (key val : String) : config :=
  .mk (set_value key val c.values) c.children

/-- The test `cfg.has_attribute(key)`. -/
def config.has_attribute (c : config) (key : String) : Bool :=
  (c.values.lookup key).isSome

/-- The first child named `key` (`cfg.child(key)`), if there is one. -/
def config.child (c : config) (key : String) : Option config :=
  c.children.lookup key

/-- The call `cfg.child_or_empty(key)`. -/
def config.child_or_empty (c : config) (key : String) : config :=
  (c.child key).getD config.blank

/-- Rewrite the first child named `key` with `f`, adding a blank one first when
there is none. -/
def update_child (key : String) (f : config → config) :
    List (String × config) → List (String × config)
  | [] => [(key, f config.blank)]
  | (k, c) :: rest => if k = key then (key, f c) :: rest else (k, c) :: update_child key f rest

/-- The pattern `config& x = cfg.child_or_add(key); x = f(x)`. -/
def config.modify_child_or_add (c : config) (key : String) (f : config → config) : config :=
  .mk c.values (update_child key f c.children)

/-- A side of the scenario, as far as this file reads it. -/
structure team where
  persistent : Bool
  lost : Bool
  is_human : Bool
  gold : Int
  current_player : String
  deriving DecidableEq, Repr

/-- The member `transient` of end_level_data. -/
structure transient_end_level where
  carryover_report : Bool
  deriving DecidableEq, Repr

/-- The record end_level_data, as far as this file reads it. -/
structure end_level_data where
  transient : transient_end_level
  prescenario_save : Bool
  replay_save : Bool
  proceed_to_next_level : Bool
  gold_bonus : Bool
  carryover_percentage : Int
  deriving DecidableEq, Repr

/-- The time-of-day manager, as far as this file reads it. -/
structure tod_manager where
  number_of_turns : Int
  turn : Int
  deriving DecidableEq, Repr

/-- What this file reads from the scenario controller once `play_scenario` is over
(`playmp_controller` derives from `playsingle_controller`; `is_host` is read in
multiplayer only). -/
structure playsingle_controller where
  /-- A call of `get_teams_const()` -/
  teams : List team
  /-- A call of `get_map_const().villages().size()` -/
  villages : Nat
  /-- A call of `get_tod_manager_const()` -/
  tod : tod_manager
  /-- A call of `get_end_level_data_const()` -/
  end_level : end_level_data
  /-- A call of `is_host()` -/
  is_host : Bool
  /-- A call of `to_config()` -/
  to_config : config

/-- The process-wide values this file reads. -/
structure resources where
  /-- A call of `resources::gamedata->next_scenario()` -/
  next_scenario : String
  /-- The value `*resources::teams` -/
  teams : List team
  /-- A call of `is_observer()` -/
  is_observer : Bool
  /-- A call of `n_unit::id_manager::instance().get_save_id()` -/
  save_id : Int

/-- The record game_classification, as far as this file reads it. -/
structure game_classification where
  label : String
  abbrev_ : String
  campaign_type : CAMPAIGN_TYPE
  deriving DecidableEq, Repr

/-- The record mp_game_settings, as far as this file writes it. -/
structure mp_game_settings where
  name : String
  hash : String
  scenario_data : config
  mp_scenario : String
  mp_scenario_name : String
  num_turns : Int
  saved_game : Bool
  use_map_settings : Bool
  deriving Repr

/-- The session state, as far as this file reads and writes its members directly.
`starting_pos` is the node handed out by `get_starting_pos()`. -/
structure saved_game where
  classification : game_classification
  carryover_sides : config
  carryover_sides_start : config
  replay_start : config
  replay_data : config
  starting_pos : config
  mp_settings : mp_game_settings
  deriving Repr

/-- The exceptions this file knows about; `other` stands for every exception that no
handler of this file catches. -/
inductive game_exception where
  | load_game_failed (message : String)
  | game_error (message : String)
  | incorrect_map_format_error (message : String)
  | config_error (message : String)
  | twml_exception (user_message dev_message : String)
  | other (what : String)
  deriving DecidableEq, Repr

/-- One piece of the stream `report` of store_carryover. -/
inductive report_item where
  | text (s : String)
  | victory (carryover_gold gold finishing_bonus_per_turn turns_left finishing_bonus : Int)
  deriving DecidableEq, Repr

/-- The texts handed to the error dialog. -/
inductive error_message where
  | could_not_be_loaded (message : String)
  | error_while_playing (message : String)
  | map_could_not_be_loaded (message : String)
  | error_while_reading_wml (message : String)
  | unknown_scenario (scenario : String)
  deriving DecidableEq, Repr

/-- The externally visible actions, in the order in which the program performs them. -/
inductive Event where
  /-- entry of `store_carryover` (bookkeeping of the embedding) -/
  | store_carryover_called (res : LEVEL_RESULT)
  /-- A call of `playcontroller.report_victory(report, ...)` -/
  | report_victory (carryover_gold gold finishing_bonus_per_turn turns_left finishing_bonus : Int)
  /-- A call of `gui2::show_transient_message(video, title, report.str(), "", true)` -/
  | show_transient_message (title : String) (report : List report_item)
  /-- A call of `gui2::show_error_message` -/
  | show_error_message (msg : error_message)
  /-- A call of `e.show(disp)` of a twml_exception -/
  | twml_show (user_message : String)
  /-- a line written to `std::cerr` -/
  | cerr (line : String)
  /-- A call of `random_generate_scenario` -/
  | random_generate_scenario
  /-- A call of `read_map` -/
  | read_map (name : String)
  /-- A call of `random_generate_map` -/
  | random_generate_map
  /-- A call of `expand_scenario()` -/
  | expand_scenario
  /-- A call of `expand_carryover()` -/
  | expand_carryover
  /-- construction of the controller followed by `play_scenario`; `mp` tells which one -/
  | play_scenario (mp : Bool)
  /-- A call of `playcontroller.maybe_linger()` -/
  | maybe_linger
  /-- A call of `set_snapshot(playcontroller.to_config())` -/
  | set_snapshot
  /-- A call of `savegame::clean_saves(label)` -/
  | clean_saves (label : String)
  /-- the automatic replay save -/
  | replay_save
  /-- the automatic start-of-scenario save -/
  | scenariostart_save
  /-- A call of `convert_to_start_save()` -/
  | convert_to_start_save
  /-- A call of `recorder.clear()` -/
  | recorder_clear
  /-- the yes/no dialog "This scenario has ended. Do you want to continue the campaign?" -/
  | show_message_continue
  /-- A call of `mp::goto_mp_wait(..., observer)` -/
  | goto_mp_wait (observer : Bool)
  /-- construction of the `mp::connect_engine` -/
  | connect_engine_created
  /-- A call of `mp::goto_mp_connect` -/
  | goto_mp_connect
  /-- A call of `connect_engine->start_game(FORCE_IMPORT_USERS)` -/
  | start_game
  /-- A call of `play_replay_level` -/
  | play_replay_level
  deriving DecidableEq, Repr

/-- The state threaded through the embedded functions. -/
structure St (W : Type) where
  gamestate : saved_game
  world : W
  trace : List Event
  deriving Repr

/-- Append one action to the trace. -/
def St.log {W : Type} (s : St W) (e : Event) : St W :=
  { s with trace := s.trace ++ [e] }

/-- What a call of `maybe_linger` ends with. -/
inductive linger_exit where
  | returned
  | end_level_exception (result : LEVEL_RESULT)
  | threw (e : game_exception)
  deriving DecidableEq, Repr

/-- The collaborators of this file.  Each field is one call that the source makes on an
object or a namespace declared elsewhere; `W` is the state of everything outside
`saved_game`.  Calls that can leave by an exception return an `Except`. -/
structure Env (W : Type) where
  /-- The value `game_config::village_income` -/
  village_income : Int
  /-- The value `game_config::base_income` -/
  base_income : Int
  /-- The value `game_config::debug` -/
  debug : Bool
  /-- whether the build defines the preprocessor name ALWAYS_USE_MP_CONTROLLER -/
  ALWAYS_USE_MP_CONTROLLER : Bool
  /-- A call of `preferences::delete_saves()` -/
  delete_saves : W → Bool
  /-- A call of `preferences::save_replays()` -/
  save_replays : W → Bool
  /-- A call of `disp.video().faked()` -/
  faked : W → Bool
  /-- A call of `network::nconnections()` -/
  nconnections : W → Nat
  /-- the accessors of the live scenario controller -/
  playcontroller : W → playsingle_controller
  /-- the process-wide values -/
  globals : W → resources
  /-- A call of `saved_game::valid()` -/
  valid : saved_game → W → Bool
  /-- A call of `saved_game::expand_scenario()` -/
  expand_scenario : saved_game → W → saved_game × W
  /-- A call of `saved_game::expand_carryover()` -/
  expand_carryover : saved_game → W → saved_game × W
  /-- A call of `saved_game::convert_to_start_save()` -/
  convert_to_start_save : saved_game → W → saved_game × W
  /-- A call of `saved_game::set_snapshot(cfg)` -/
  set_snapshot : config → saved_game → W → saved_game × W
  /-- A call of `saved_game::set_scenario(cfg)` -/
  set_scenario : config → saved_game → W → saved_game × W
  /-- A call of `attribute_value::to_bool(def)` on the string form of a value -/
  to_bool : String → Bool → Bool
  /-- A call of `attribute_value::to_int(def)` on the string form of a value -/
  to_int : String → Int → Int
  /-- A call of `config::hash()` -/
  hash : config → String
  /-- A call of `end_level_data::write(cfg)`: the node `cfg` after the call -/
  end_level_write : end_level_data → config → config
  /-- A call of `random_generate_scenario(parms, generator)` -/
  random_generate_scenario : String → Option config → W → Except game_exception config × W
  /-- A call of `read_map(name)` -/
  read_map : String → W → Except game_exception String × W
  /-- A call of `random_generate_map(parms, generator)` -/
  random_generate_map : String → Option config → W → Except game_exception String × W
  /-- construction of a `playsingle_controller` followed by `play_scenario(story, skip_replay)` -/
  play_single : (skip_replay : Bool) → saved_game → W →
    Except game_exception LEVEL_RESULT × saved_game × W
  /-- construction of a `playmp_controller` followed by `play_scenario(story, skip_replay)` -/
  play_mp : (skip_replay blindfold_replay is_server : Bool) → saved_game → W →
    Except game_exception LEVEL_RESULT × saved_game × W
  /-- A call of `playcontroller.maybe_linger()` -/
  maybe_linger : saved_game → W → linger_exit × saved_game × W
  /-- the yes/no dialog of play_game; `true` when the answer is `gui2::twindow::CANCEL` -/
  show_message_continue : W → Bool × W
  /-- A call of `mp::goto_mp_wait(gamestate, disp, game_config, observer)` -/
  goto_mp_wait : (observer : Bool) → saved_game → W → mp_ui_result × saved_game × W
  /-- A call of `new mp::connect_engine(disp, gamestate, params, local_players_only, false)` -/
  connect_engine : (local_players_only : Bool) → saved_game → W → saved_game × W
  /-- A call of `mp::goto_mp_connect(disp, *connect_engine, game_config, params.name)` -/
  goto_mp_connect : saved_game → W → mp_ui_result × saved_game × W
  /-- A call of `connect_engine->start_game(mp::connect_engine::FORCE_IMPORT_USERS)` -/
  start_game : saved_game → W → saved_game × W
  /-- A call of `play_replay_level(game_config, video, gamestate, is_unit_test)` -/
  play_replay_level : (is_unit_test : Bool) → saved_game → W →
    Except game_exception LEVEL_RESULT × saved_game × W

/-- Run a collaborator that updates the session state and the world. -/
def St.call {W : Type} (s : St W) (f : saved_game → W → saved_game × W) : St W :=
  { s with gamestate := (f s.gamestate s.world).1, world := (f s.gamestate s.world).2 }

/-! ## store_carryover -/

/-- The value of type `int` (32 bits, two's complement) that an integer is narrowed or
wrapped to: the one number in the range of `int` that is congruent to it modulo 2^32.
The narrowing of a `size_t` to `int` is this value; for `int` arithmetic that leaves the
range, which the language leaves undefined, it is the value that two's complement hardware
computes. -/
def to_int (z : Int) : Int :=
  (z + 2147483648) % 4294967296 - 2147483648

/-- The value of type `size_t` (64 bits) that an integer is converted or wrapped to. -/
def to_size_t (z : Int) : Int :=
  z % 18446744073709551616

/-- The range of `int`. -/
def in_int_range (z : Int) : Prop :=
  -2147483648 ≤ z ∧ z ≤ 2147483647

/-- Modelled from the spec: `div100rounded` is declared in a header that is not among the
sources.  The spec gives its meaning: "Carried gold per team =
round((currentGold + bonus) * carryoverPercentage / 100), using round-half-up semantics".
The argument is the product before the division by 100. -/
def div100rounded (num : Int) : Int :=
  (num + 50) / 100

/-- Rounding of a rational to the nearest integer, halves rounded up (the wording of the
spec; used on the specification side only). -/
def round_half_up (q : ℚ) : ℤ :=
  ⌊q + 1 / 2⌋

/-- The first loop of store_carryover: the number of persistent teams. -/
def count_persistent (teams : List team) : Int :=
  teams.foldl (fun n t => if t.persistent then n + 1 else n) 0

/-- The local `finishing_bonus_per_turn` of store_carryover.  The operands
`game_config::village_income` and `game_config::base_income` are converted to `size_t`,
the product and the sum are computed in `size_t`, and the result is narrowed to `int`
(the narrowed value is the same for a `size_t` of 32 bits). -/
def finishing_bonus_per_turn {W : Type} (env : Env W) (pc : playsingle_controller) : Int :=
  to_int
    (to_size_t
      (to_size_t (to_size_t (pc.villages : Int) * to_size_t env.village_income) +
        to_size_t env.base_income))

/-- The local `turns_left` of store_carryover: `std::max<int>` of 0 and an `int`
difference. -/
def turns_left (pc : playsingle_controller) : Int :=
  max 0 (to_int (pc.tod.number_of_turns - pc.tod.turn))

/-- The local `finishing_bonus` of store_carryover: an `int` product. -/
def finishing_bonus {W : Type} (env : Env W) (pc : playsingle_controller)
    (end_level : end_level_data) : Int :=
  if end_level.gold_bonus = true ∧ turns_left pc > -1 then
    to_int (finishing_bonus_per_turn env pc * turns_left pc)
  else 0

/-- The local `carryover_gold` of store_carryover: the `int` sum of the gold and the
bonus, its `int` product with the percentage, and `div100rounded` of that. -/
def carryover_gold (bonus percentage : Int) (t : team) : Int :=
  div100rounded (to_int (to_int (t.gold + bonus) * percentage))

/-- The locals `title` and `report` of store_carryover before the team loop. -/
def report_header (obs : Bool) (res : LEVEL_RESULT) : String × List report_item :=
  if obs = true then
    ("Scenario Report", [])
  else if res = LEVEL_RESULT.VICTORY then
    ("Victory", [report_item.text "<b>You have emerged victorious!</b>\n\n"])
  else
    ("Defeat", [report_item.text "You have been defeated!\n"])

/-- The test that makes the second loop of store_carryover skip a team. -/
def skipped (t : team) : Bool :=
  !t.persistent || t.lost || !t.is_human

/-- One turn of the second loop of store_carryover, on the pair of the stream `report`
and the trace. -/
def carryover_team (persistent_teams per_turn left bonus percentage : Int)
    (acc : List report_item × List Event) (t : team) : List report_item × List Event :=
  if skipped t = true then
    acc
  else
    let carryover_gold := carryover_gold bonus percentage t
    let report :=
      if persistent_teams > 1 then
        acc.1 ++ [report_item.text ("\n<b>" ++ t.current_player ++ "</b>\n")]
      else acc.1
    (report ++ [report_item.victory carryover_gold t.gold per_turn left bonus],
     acc.2 ++ [Event.report_victory carryover_gold t.gold per_turn left bonus])

/-- The guard of the carryover block of store_carryover. -/
def carryover_block_runs (persistent_teams : Int) (has_next_scenario : Bool)
    (end_level : end_level_data) (campaign_type : CAMPAIGN_TYPE) : Bool :=
  decide (persistent_teams > 0) &&
    ((has_next_scenario && end_level.proceed_to_next_level) ||
      decide (campaign_type = CAMPAIGN_TYPE.TEST))

/-- The function store_carryover. -/
def store_carryover {W : Type} (env : Env W) (pc : playsingle_controller)
    (end_level : end_level_data) (res : LEVEL_RESULT) (s0 : St W) : St W :=
  let s := s0.log (Event.store_carryover_called res)
  let g := env.globals s.world
  let has_next_scenario : Bool :=
    decide (g.next_scenario ≠ "") && decide (g.next_scenario ≠ "null")
  if g.teams.length < 1 then
    { s with gamestate :=
        { s.gamestate with
          carryover_sides_start :=
            s.gamestate.carryover_sides_start.set "next_scenario" g.next_scenario } }
  else
    let header := report_header g.is_observer res
    let teams := pc.teams
    let persistent_teams := count_persistent teams
    let acc : List report_item × List Event :=
      if carryover_block_runs persistent_teams has_next_scenario end_level
          s.gamestate.classification.campaign_type = true then
        teams.foldl
          (carryover_team persistent_teams (finishing_bonus_per_turn env pc) (turns_left pc)
            (finishing_bonus env pc end_level) end_level.carryover_percentage)
          (header.2, s.trace)
      else (header.2, s.trace)
    if end_level.transient.carryover_report = true then
      { s with trace := acc.2 ++ [Event.show_transient_message header.1 acc.1] }
    else
      { s with trace := acc.2 }

/-! ## play_replay -/

/-- The function play_replay before the call of play_replay_level: the variables of the
starting position and the label. -/
def replay_setup {W : Type} (s0 : St W) : St W :=
  let starting_pos := s0.gamestate.replay_start
  let s1 : St W :=
    match starting_pos.child "variables" with
    | some vars =>
      { s0 with gamestate :=
          { s0.gamestate with
            carryover_sides_start :=
              s0.gamestate.carryover_sides_start.modify_child_or_add "variables" (fun _ => vars) } }
    | none => s0
  if s1.gamestate.classification.label = "" then
    { s1 with gamestate :=
        { s1.gamestate with
          classification :=
            { s1.gamestate.classification with label := starting_pos.get "name" } } }
  else s1

/-- The function play_replay.  The result is what the function returns, or the exception
that leaves it (no handler of play_replay catches `config::error`). -/
def play_replay {W : Type} (env : Env W) (is_unit_test : Bool) (s0 : St W) :
    Except game_exception LEVEL_RESULT × St W :=
  let s2 := replay_setup s0
  let r := env.play_replay_level is_unit_test s2.gamestate s2.world
  let s3 : St W := { gamestate := r.2.1, world := r.2.2, trace := s2.trace ++ [Event.play_replay_level] }
  match r.1 with
  | .ok res =>
    (.ok res,
      { (s3.log Event.recorder_clear) with
        gamestate := { s3.gamestate with replay_data := config.blank } })
  | .error (.load_game_failed message) =>
    if is_unit_test = true then
      (.ok LEVEL_RESULT.DEFEAT,
        s3.log (Event.cerr ("The game could not be loaded: " ++ " (game::load_game_failed) " ++ message)))
    else
      (.ok LEVEL_RESULT.NONE,
        s3.log (Event.show_error_message (error_message.could_not_be_loaded message)))
  | .error (.game_error message) =>
    if is_unit_test = true then
      (.ok LEVEL_RESULT.DEFEAT,
        s3.log (Event.cerr ("Error while playing the game: " ++ " (game::game_error) " ++ message)))
    else
      (.ok LEVEL_RESULT.NONE,
        s3.log (Event.show_error_message (error_message.error_while_playing message)))
  | .error (.incorrect_map_format_error message) =>
    if is_unit_test = true then
      (.ok LEVEL_RESULT.DEFEAT,
        s3.log (Event.cerr ("The game map could not be loaded: " ++ " (incorrect_map_format_error) " ++ message)))
    else
      (.ok LEVEL_RESULT.NONE,
        s3.log (Event.show_error_message (error_message.map_could_not_be_loaded message)))
  | .error (.twml_exception user_message dev_message) =>
    if is_unit_test = true then
      (.ok LEVEL_RESULT.DEFEAT,
        (s3.log (Event.cerr ("WML Exception: " ++ user_message))).log
          (Event.cerr ("Dev Message: " ++ dev_message)))
    else
      (.ok LEVEL_RESULT.NONE, s3.log (Event.twml_show user_message))
  | .error (.config_error message) => (.error (.config_error message), s3)
  | .error (.other what) => (.error (.other what), s3)

/-! ## playsingle_scenario and playmp_scenario -/

/-- How the linger step of a scenario function ends. -/
inductive linger_step (W : Type) where
  /-- control reaches the statement after the `if (res != QUIT)` block -/
  | fall_through (s : St W)
  /-- the statement `return QUIT;` of the handler of end_level_exception -/
  | return_quit (s : St W)
  /-- another exception leaves the function -/
  | threw (e : game_exception) (s : St W)

/-- The state in which the linger step ends. -/
def linger_step.state {W : Type} : linger_step W → St W
  | .fall_through s => s
  | .return_quit s => s
  | .threw _ s => s

/-- The block `if(!disp.video().faked()) { try { maybe_linger(); } catch ... }`. -/
def linger {W : Type} (env : Env W) (s : St W) : linger_step W :=
  if env.faked s.world = false then
    let l := env.maybe_linger s.gamestate s.world
    let s1 : St W := { gamestate := l.2.1, world := l.2.2, trace := s.trace ++ [Event.maybe_linger] }
    match l.1 with
    | .returned => .fall_through s1
    | .end_level_exception result =>
      if result = LEVEL_RESULT.QUIT then .return_quit s1 else .fall_through s1
    | .threw e => .threw e s1
  else .fall_through s

/-- The two writes into `carryover_sides` after `play_scenario`; the unit id is
converted by `int(...)` before it is stored. -/
def record_end_level {W : Type} (env : Env W) (end_level : end_level_data) (s : St W) : St W :=
  { s with gamestate :=
      { s.gamestate with
        carryover_sides :=
          (s.gamestate.carryover_sides.set "next_underlying_unit_id"
            (toString (to_int (env.globals s.world).save_id))).modify_child_or_add
              "end_level_data"
              (env.end_level_write end_level) } }

/-- The statement `state_of_game.set_snapshot(playcontroller.to_config());`. -/
def snapshot {W : Type} (env : Env W) (s : St W) : St W :=
  (s.call (env.set_snapshot (env.playcontroller s.world).to_config)).log Event.set_snapshot

/-- The function playsingle_scenario up to the linger block: carryover expansion, the
scenario itself, the end-level data and store_carryover. -/
def playsingle_before_linger {W : Type} (env : Env W) (skip_replay : Bool) (s0 : St W) :
    Except game_exception (LEVEL_RESULT × end_level_data) × St W :=
  let s1 := (s0.call env.expand_carryover).log Event.expand_carryover
  let r := env.play_single skip_replay s1.gamestate s1.world
  let s2 : St W :=
    { gamestate := r.2.1, world := r.2.2, trace := s1.trace ++ [Event.play_scenario false] }
  match r.1 with
  | .error e => (.error e, s2)
  | .ok res =>
    let playcontroller := env.playcontroller s2.world
    let end_level := playcontroller.end_level
    let s3 := record_end_level env end_level s2
    if res ≠ LEVEL_RESULT.QUIT then
      if res ≠ LEVEL_RESULT.SKIP_TO_LINGER then
        (.ok (res, end_level), store_carryover env playcontroller end_level res s3)
      else (.ok (res, end_level), s3)
    else (.ok (res, end_level), s3)

/-- The function playsingle_scenario; the second component of a normal result is the
value left in the out-parameter `end_level`. -/
def playsingle_scenario {W : Type} (env : Env W) (skip_replay : Bool) (s0 : St W) :
    Except game_exception (LEVEL_RESULT × end_level_data) × St W :=
  match playsingle_before_linger env skip_replay s0 with
  | (.error e, s) => (.error e, s)
  | (.ok (res, end_level), s) =>
    if res ≠ LEVEL_RESULT.QUIT then
      match linger env s with
      | .fall_through s1 => (.ok (res, end_level), snapshot env s1)
      | .return_quit s1 => (.ok (LEVEL_RESULT.QUIT, end_level), s1)
      | .threw e s1 => (.error e, s1)
    else
      (.ok (res, end_level), snapshot env s)

/-- The function playmp_scenario up to the linger block; `io_type` is passed by
reference, its value after the host check is the middle component. -/
def playmp_before_linger {W : Type} (env : Env W) (skip_replay blindfold_replay : Bool)
    (io_type : io_type_t) (s0 : St W) :
    Except game_exception (LEVEL_RESULT × end_level_data) × io_type_t × St W :=
  let s1 := (s0.call env.expand_carryover).log Event.expand_carryover
  let r := env.play_mp skip_replay blindfold_replay (decide (io_type = io_type_t.IO_SERVER))
    s1.gamestate s1.world
  let s2 : St W :=
    { gamestate := r.2.1, world := r.2.2, trace := s1.trace ++ [Event.play_scenario true] }
  match r.1 with
  | .error e => (.error e, io_type, s2)
  | .ok res =>
    let playcontroller := env.playcontroller s2.world
    let end_level := playcontroller.end_level
    let s3 := record_end_level env end_level s2
    let io_type1 :=
      if io_type = io_type_t.IO_CLIENT ∧ playcontroller.is_host = true then io_type_t.IO_SERVER
      else io_type
    if res ≠ LEVEL_RESULT.QUIT then
      if res ≠ LEVEL_RESULT.OBSERVER_END ∧ res ≠ LEVEL_RESULT.SKIP_TO_LINGER then
        (.ok (res, end_level), io_type1, store_carryover env playcontroller end_level res s3)
      else
        (.ok (res, end_level), io_type1,
          { s3 with gamestate :=
              { s3.gamestate with
                carryover_sides_start :=
                  s3.gamestate.carryover_sides_start.set "next_scenario"
                    (env.globals s3.world).next_scenario } })
    else (.ok (res, end_level), io_type1, s3)

/-- The function playmp_scenario; the final value of `io_type` is the middle component
of the result. -/
def playmp_scenario {W : Type} (env : Env W) (skip_replay blindfold_replay : Bool)
    (io_type : io_type_t) (s0 : St W) :
    Except game_exception (LEVEL_RESULT × end_level_data) × io_type_t × St W :=
  match playmp_before_linger env skip_replay blindfold_replay io_type s0 with
  | (.error e, io_type1, s) => (.error e, io_type1, s)
  | (.ok (res, end_level), io_type1, s) =>
    if res ≠ LEVEL_RESULT.QUIT then
      match linger env s with
      | .fall_through s1 => (.ok (res, end_level), io_type1, snapshot env s1)
      | .return_quit s1 => (.ok (LEVEL_RESULT.QUIT, end_level), io_type1, s1)
      | .threw e s1 => (.error e, io_type1, s1)
    else
      (.ok (res, end_level), io_type1, snapshot env s)

/-! ## play_game -/

/-- How one trip through the body of the while loop of play_game ends. -/
inductive loop_step (W : Type) where
  /-- a `return` statement, or an exception that no handler catches -/
  | returned (res : Except game_exception LEVEL_RESULT) (s : St W)
  /-- the end of the body: control goes back to the test of the loop -/
  | again (io_type : io_type_t) (s : St W)

/-- The label computed from the abbreviation and the name of the scenario. -/
def scenario_label (gamestate : saved_game) : String :=
  if gamestate.classification.abbrev_ = "" then
    gamestate.starting_pos.get "name"
  else
    (gamestate.classification.abbrev_ ++ "-") ++ gamestate.starting_pos.get "name"

/-- The assignment of `classification().label` ("Update the label"). -/
def update_label (gamestate : saved_game) : saved_game :=
  { gamestate with
    classification := { gamestate.classification with label := scenario_label gamestate } }

/-- The statement "Preserve old label eg. replay" at the head of the try block. -/
def preserve_label (gamestate : saved_game) : saved_game :=
  if gamestate.classification.label = "" then update_label gamestate else gamestate

/-- Sequencing inside a try block: the second stretch runs when the first one has not
thrown. -/
def and_then {W α β : Type} (r : Except game_exception α × St W)
    (f : α → St W → Except game_exception β × St W) : Except game_exception β × St W :=
  match r.1 with
  | .error e => (.error e, r.2)
  | .ok a => f a r.2

/-- The function generate_scenario.  The generated scenario is bound to the local pointer
of the caller only, so nothing of it is kept; the call can throw. -/
def generate_scenario {W : Type} (env : Env W) (scenario : config) (s : St W) :
    Except game_exception Unit × St W :=
  let r := env.random_generate_scenario (scenario.get "scenario_generation")
    (scenario.child "generator") s.world
  (r.1.map (fun _ => ()),
    { s with world := r.2, trace := s.trace ++ [Event.random_generate_scenario] })

/-- The function generate_map.  The scenario with the generated map is bound to the local
pointer of the caller only, so nothing of it is kept; the call can throw. -/
def generate_map {W : Type} (env : Env W) (scenario : config) (s : St W) :
    Except game_exception Unit × St W :=
  let r := env.random_generate_map (scenario.get "map_generation")
    (scenario.child "generator") s.world
  (r.1.map (fun _ => ()),
    { s with world := r.2, trace := s.trace ++ [Event.random_generate_map] })

/-- The call `read_map(starting_pos["map"])`. -/
def read_map {W : Type} (env : Env W) (name : String) (s : St W) :
    Except game_exception String × St W :=
  let r := env.read_map name s.world
  (r.1, { s with world := r.2, trace := s.trace ++ [Event.read_map name] })

/-- The part of the try block of play_game that comes before the switch: the label, the
generation of the scenario, the map data.
`sound::empty_playlist()` has no effect on anything this file reads and is left out. -/
def resolve_scenario {W : Type} (env : Env W) (s0 : St W) : Except game_exception Unit × St W :=
  let s1 : St W := { s0 with gamestate := preserve_label s0.gamestate }
  let starting_pos := s1.gamestate.starting_pos
  and_then
    (if starting_pos.get "scenario_generation" ≠ "" then generate_scenario env starting_pos s1
      else (.ok (), s1))
    fun _ s2 =>
      and_then
        (if starting_pos.get "map_data" = "" ∧ starting_pos.get "map" ≠ "" then
          read_map env (starting_pos.get "map") s2
        else (.ok (starting_pos.get "map_data"), s2))
        fun map_data s3 =>
          if map_data = "" ∧ starting_pos.get "map_generation" ≠ "" then
            generate_map env starting_pos s3
          else (.ok (), s3)

/-- The switch on `io_type` inside the try block of play_game. -/
def run_scenario {W : Type} (env : Env W) (skip_replay blindfold_replay : Bool)
    (io_type : io_type_t) (s : St W) :
    Except game_exception (LEVEL_RESULT × end_level_data) × io_type_t × St W :=
  match io_type with
  | .IO_NONE =>
    if env.ALWAYS_USE_MP_CONTROLLER = false then
      let r := playsingle_scenario env skip_replay s
      (r.1, io_type, r.2)
    else playmp_scenario env skip_replay blindfold_replay io_type s
  | .IO_SERVER => playmp_scenario env skip_replay blindfold_replay io_type s
  | .IO_CLIENT => playmp_scenario env skip_replay blindfold_replay io_type s

/-- The try block of play_game. -/
def try_block {W : Type} (env : Env W) (skip_replay blindfold_replay : Bool)
    (io_type : io_type_t) (s : St W) :
    Except game_exception (LEVEL_RESULT × end_level_data) × io_type_t × St W :=
  match resolve_scenario env s with
  | (.error e, s1) => (.error e, io_type, s1)
  | (.ok _, s1) => run_scenario env skip_replay blindfold_replay io_type s1

/-- The handlers of the try block of play_game: the state after the handler and what
play_game then returns (or the exception that goes on to the caller). -/
def handle_exception {W : Type} (e : game_exception) (s : St W) :
    Except game_exception LEVEL_RESULT × St W :=
  match e with
  | .load_game_failed message =>
    (.ok LEVEL_RESULT.QUIT,
      s.log (Event.show_error_message (error_message.could_not_be_loaded message)))
  | .game_error message =>
    (.ok LEVEL_RESULT.QUIT,
      s.log (Event.show_error_message (error_message.error_while_playing message)))
  | .incorrect_map_format_error message =>
    (.ok LEVEL_RESULT.QUIT,
      s.log (Event.show_error_message (error_message.map_could_not_be_loaded message)))
  | .config_error message =>
    (.ok LEVEL_RESULT.QUIT,
      (s.log (Event.cerr "caught config::error...\n")).log
        (Event.show_error_message (error_message.error_while_reading_wml message)))
  | .twml_exception user_message _ =>
    (.ok LEVEL_RESULT.QUIT, s.log (Event.twml_show user_message))
  | .other what => (.error (.other what), s)

/-- The test `res == VICTORY || (io_type != IO_NONE && res == DEFEAT)`. -/
def game_end (res : LEVEL_RESULT) (io_type : io_type_t) : Bool :=
  decide (res = LEVEL_RESULT.VICTORY) ||
    (decide (io_type ≠ io_type_t.IO_NONE) && decide (res = LEVEL_RESULT.DEFEAT))

/-- The block "Save-management options fire on game end". -/
def save_management {W : Type} (env : Env W) (res : LEVEL_RESULT) (end_level : end_level_data)
    (io_type : io_type_t) (s : St W) : St W :=
  if game_end res io_type = true then
    let s1 :=
      if env.delete_saves s.world = true then
        s.log (Event.clean_saves s.gamestate.classification.label)
      else s
    if env.save_replays s1.world = true ∧ end_level.replay_save = true then
      s1.log Event.replay_save
    else s1
  else s

/-- The statement `gamestate.expand_scenario();`. -/
def expanded {W : Type} (env : Env W) (s : St W) : St W :=
  (s.call env.expand_scenario).log Event.expand_scenario

/-- How a stretch of the loop body of play_game ends. -/
inductive flow (W : Type) where
  /-- a `return` statement -/
  | returned (res : LEVEL_RESULT) (s : St W)
  /-- control reaches the statement after the stretch -/
  | next (s : St W)

/-- The state in which a stretch ends. -/
def flow.state {W : Type} : flow W → St W
  | .returned _ s => s
  | .next s => s

/-- The branch `io_type == IO_SERVER && gamestate.valid()` of play_game up to the
construction of the connect engine: the settings of the next scenario.  The first
component is the local `allow_new_game_flag`. -/
def prepare_connect {W : Type} (env : Env W) (network_game : Bool) (s0 : St W) : Bool × St W :=
  let hash := env.hash s0.gamestate.starting_pos
  let s1 : St W :=
    { s0 with gamestate :=
        { s0.gamestate with mp_settings := { s0.gamestate.mp_settings with hash := hash } } }
  let s2 := (s1.call env.expand_carryover).log Event.expand_carryover
  let scenario := s2.gamestate.starting_pos
  let settings :=
    (s2.gamestate.carryover_sides_start.child_or_empty "end_level_data").child_or_empty
      "next_scenario_settings"
  let allow_new_game_flag : Bool :=
    if settings.has_attribute "allow_new_game" = true then
      env.to_bool (settings.get "allow_new_game") false
    else env.to_bool (scenario.get "allow_new_game") true
  let s3 : St W :=
    { s2 with gamestate :=
        { s2.gamestate with
          mp_settings :=
            { s2.gamestate.mp_settings with
              scenario_data :=
                scenario.set "next_underlying_unit_id" (toString (env.globals s2.world).save_id)
              mp_scenario := scenario.get "id"
              mp_scenario_name := scenario.get "name"
              num_turns := env.to_int (scenario.get "turns") (-1)
              saved_game := false
              use_map_settings := env.to_bool (scenario.get "force_lock_settings") false } } }
  (allow_new_game_flag,
    (s3.call (env.connect_engine (!network_game))).log Event.connect_engine_created)

/-- The branch `io_type == IO_SERVER && gamestate.valid()` of play_game. -/
def negotiate_server {W : Type} (env : Env W) (network_game : Bool) (s0 : St W) : flow W :=
  let p := prepare_connect env network_game s0
  let allow_new_game_flag := p.1
  let s4 := p.2
  if allow_new_game_flag = true ∨ (env.debug = true ∧ env.nconnections s4.world = 0) then
    let c := env.goto_mp_connect s4.gamestate s4.world
    let s5 : St W :=
      { gamestate := c.2.1, world := c.2.2, trace := s4.trace ++ [Event.goto_mp_connect] }
    if c.1 = mp_ui_result.QUIT then .returned LEVEL_RESULT.QUIT s5
    else
      .next { s5 with gamestate := { s5.gamestate with starting_pos := s5.gamestate.replay_start } }
  else
    let s5 := (s4.call env.start_game).log Event.start_game
    .next { s5 with gamestate := { s5.gamestate with starting_pos := s5.gamestate.replay_start } }

/-- The statement `if (io_type == IO_CLIENT) ... else ...` of play_game. -/
def negotiate {W : Type} (env : Env W) (network_game : Bool) (res : LEVEL_RESULT)
    (io_type : io_type_t) (s : St W) : flow W :=
  if io_type = io_type_t.IO_CLIENT then
    let w := env.goto_mp_wait (decide (res = LEVEL_RESULT.OBSERVER_END)) s.gamestate s.world
    let s1 : St W :=
      { gamestate := w.2.1, world := w.2.2,
        trace := s.trace ++ [Event.goto_mp_wait (decide (res = LEVEL_RESULT.OBSERVER_END))] }
    if w.1 = mp_ui_result.QUIT then .returned LEVEL_RESULT.QUIT s1
    else
      let s2 := s1.call (env.set_scenario s1.gamestate.replay_start)
      .next { s2 with gamestate := { s2.gamestate with replay_start := config.blank } }
  else
    let s1 := expanded env s
    if io_type = io_type_t.IO_SERVER ∧ env.valid s1.gamestate s1.world = true then
      negotiate_server env network_game s1
    else .next s1

/-- The last statement of the loop body of play_game: the label and the
start-of-scenario save. -/
def checkpoint {W : Type} (env : Env W) (save_game_after_scenario : Bool) (s : St W) : St W :=
  if env.valid s.gamestate s.world = true then
    let s1 : St W := { s with gamestate := update_label s.gamestate }
    if save_game_after_scenario = true then s1.log Event.scenariostart_save else s1
  else s

/-- The loop body of play_game from the test of `is_unit_test` to the test
"If there is no next scenario we are done now". -/
def scenario_end {W : Type} (env : Env W) (is_unit_test : Bool)
    (res : LEVEL_RESULT) (end_level : end_level_data) (io_type : io_type_t) (s0 : St W) :
    flow W :=
  if is_unit_test = true then .returned res s0
  else
    let s1 := save_management env res end_level io_type s0
    let s2 := ((s1.call env.convert_to_start_save).log Event.convert_to_start_save).log
      Event.recorder_clear
    if res = LEVEL_RESULT.QUIT ∨ end_level.proceed_to_next_level = false ∨
        s2.gamestate.carryover_sides_start.get "next_scenario" = "" then
      .returned res s2
    else .next s2

/-- The branch `else if(res == OBSERVER_END)` of play_game: the dialog that asks whether
to continue the campaign. -/
def observer_dialog {W : Type} (env : Env W) (res : LEVEL_RESULT) (s : St W) : flow W :=
  if res = LEVEL_RESULT.OBSERVER_END then
    let d := env.show_message_continue s.world
    let s1 : St W := { s with world := d.2, trace := s.trace ++ [Event.show_message_continue] }
    if d.1 = true then .returned res s1 else .next s1
  else .next s

/-- The loop body of play_game after the try block, for a scenario that ended with `res`. -/
def after_scenario {W : Type} (env : Env W) (network_game is_unit_test : Bool)
    (res : LEVEL_RESULT) (end_level : end_level_data) (io_type : io_type_t) (s0 : St W) :
    loop_step W :=
  match scenario_end env is_unit_test res end_level io_type s0 with
  | .returned r s1 => .returned (.ok r) s1
  | .next s1 =>
    match observer_dialog env res s1 with
    | .returned r s2 => .returned (.ok r) s2
    | .next s2 =>
      let save_game_after_scenario := end_level.prescenario_save
      match negotiate env network_game res io_type s2 with
      | .returned r s3 => .returned (.ok r) s3
      | .next s3 => .again io_type (checkpoint env save_game_after_scenario s3)

/-- The body of the while loop of play_game. -/
def loop_body {W : Type} (env : Env W)
    (skip_replay network_game blindfold_replay is_unit_test : Bool)
    (io_type : io_type_t) (s : St W) : loop_step W :=
  match try_block env skip_replay blindfold_replay io_type s with
  | (.error e, _, s1) => .returned (handle_exception e s1).1 (handle_exception e s1).2
  | (.ok (res, end_level), io_type1, s1) =>
    after_scenario env network_game is_unit_test res end_level io_type1 s1

/-- The code of play_game after the while loop. -/
def after_loop {W : Type} (env : Env W) (s : St W) : LEVEL_RESULT × St W :=
  let next_scenario := s.gamestate.carryover_sides_start.get "next_scenario"
  if next_scenario ≠ "" ∧ next_scenario ≠ "null" then
    (LEVEL_RESULT.QUIT,
      s.log (Event.show_error_message (error_message.unknown_scenario next_scenario)))
  else
    let s1 :=
      if s.gamestate.classification.campaign_type = CAMPAIGN_TYPE.SCENARIO then
        if env.delete_saves s.world = true then
          s.log (Event.clean_saves s.gamestate.classification.label)
        else s
      else s
    (LEVEL_RESULT.VICTORY, s1)

/-- The state in which play_game enters its loop. -/
def loop_entry {W : Type} (env : Env W) (s : St W) : St W :=
  expanded env s

/-- How the while loop of play_game is left. -/
inductive loop_exit (W : Type) where
  /-- by a `return` (or an uncaught exception) inside the body -/
  | returned (res : Except game_exception LEVEL_RESULT) (s : St W)
  /-- by the test `gamestate.valid()` being false -/
  | not_valid (s : St W)

/-- The while loop of play_game, run for at most `fuel` tests of its condition;
`none` when the fuel does not suffice. -/
def while_loop {W : Type} (env : Env W)
    (skip_replay network_game blindfold_replay is_unit_test : Bool) :
    Nat → io_type_t → St W → Option (loop_exit W)
  | 0, _, _ => none
  | fuel + 1, io_type, s =>
    if env.valid s.gamestate s.world = true then
      match loop_body env skip_replay network_game blindfold_replay is_unit_test io_type s with
      | .returned res s1 => some (.returned res s1)
      | .again io_type1 s1 =>
        while_loop env skip_replay network_game blindfold_replay is_unit_test fuel io_type1 s1
    else some (.not_valid s)

/-- The function play_game, with `fuel` bounding the number of tests of the loop
condition. -/
def play_game {W : Type} (env : Env W) (io_type : io_type_t)
    (skip_replay network_game blindfold_replay is_unit_test : Bool) (fuel : Nat) (s : St W) :
    Option (Except game_exception LEVEL_RESULT × St W) :=
  match while_loop env skip_replay network_game blindfold_replay is_unit_test fuel io_type
      (loop_entry env s) with
  | none => none
  | some (.returned res s1) => some (res, s1)
  | some (.not_valid s1) => some (.ok (after_loop env s1).1, (after_loop env s1).2)

/-- The state in which the loop condition of play_game is tested after `k` complete trips
through the body (each one entered with a valid state and ended at the end of the body);
`none` when the loop is left earlier. -/
def loop_head {W : Type} (env : Env W)
    (skip_replay network_game blindfold_replay is_unit_test : Bool) :
    Nat → io_type_t → St W → Option (io_type_t × St W)
  | 0, io_type, s => some (io_type, s)
  | k + 1, io_type, s =>
    if env.valid s.gamestate s.world = true then
      match loop_body env skip_replay network_game blindfold_replay is_unit_test io_type s with
      | .returned _ _ => none
      | .again io_type1 s1 =>
        loop_head env skip_replay network_game blindfold_replay is_unit_test k io_type1 s1
    else none

/-! ## Reading a trace -/

/-- The arguments of the calls of `report_victory` recorded in a trace, in order:
carried gold, gold of the team, bonus per turn, turns left, finishing bonus. -/
def report_victory_calls (trace : List Event) : List (Int × Int × Int × Int × Int) :=
  trace.filterMap fun e =>
    match e with
    | Event.report_victory c g p l b => some (c, g, p, l, b)
    | _ => none

/-- The teams for which the second loop of store_carryover computes a carried gold. -/
def carries (t : team) : Bool :=
  t.persistent && !t.lost && t.is_human

/-- The actions that write or delete saves. -/
def Event.touches_saves : Event → Bool
  | .clean_saves _ => true
  | .replay_save => true
  | .scenariostart_save => true
  | _ => false

/-- The actions by which play_game moves on to a next scenario: expanding it, the
negotiation screens and the connect engine, the start-of-scenario save, running it. -/
def Event.starts_next_scenario : Event → Bool
  | .expand_scenario => true
  | .expand_carryover => true
  | .goto_mp_wait _ => true
  | .connect_engine_created => true
  | .goto_mp_connect => true
  | .start_game => true
  | .scenariostart_save => true
  | .play_scenario _ => true
  | _ => false

/-- The actions of store_carryover: its entry, its calls of report_victory and its
transient message. -/
def Event.is_carryover : Event → Bool
  | .store_carryover_called _ => true
  | .report_victory _ _ _ _ _ => true
  | .show_transient_message _ _ => true
  | _ => false

/-- The trace of `s1` is the trace of `s` followed by actions that all satisfy `P`. -/
def Steps {W : Type} (P : Event → Prop) (s s1 : St W) : Prop :=
  ∃ added, s1.trace = s.trace ++ added ∧ ∀ e ∈ added, P e

/-- The actions that are neither part of store_carryover, nor a save, nor a step towards
a next scenario. -/
def Event.is_quiet (e : Event) : Prop :=
  e.is_carryover = false ∧ e.touches_saves = false ∧ e.starts_next_scenario = false

/-- The error dialogs: `gui2::show_error_message` and the `show` of a twml_exception. -/
def Event.is_error_dialog : Event → Bool
  | .show_error_message _ => true
  | .twml_show _ => true
  | _ => false

/-- The lines written to `std::cerr`. -/
def Event.is_cerr : Event → Bool
  | .cerr _ => true
  | _ => false

/-- The exceptions for which play_replay has a handler. -/
def game_exception.caught_by_play_replay : game_exception → Bool
  | .load_game_failed _ => true
  | .game_error _ => true
  | .incorrect_map_format_error _ => true
  | .twml_exception _ _ => true
  | _ => false

/-- The exceptions for which play_game has a handler. -/
def game_exception.caught_by_play_game : game_exception → Bool
  | .other _ => false
  | _ => true

/-- The error dialog that belongs to an exception (with the line that play_game writes to
std::cerr before the dialog of a config error); used on the specification side only. -/
def error_dialog : game_exception → List Event
  | .load_game_failed message =>
    [Event.show_error_message (error_message.could_not_be_loaded message)]
  | .game_error message =>
    [Event.show_error_message (error_message.error_while_playing message)]
  | .incorrect_map_format_error message =>
    [Event.show_error_message (error_message.map_could_not_be_loaded message)]
  | .config_error message =>
    [Event.cerr "caught config::error...\n",
      Event.show_error_message (error_message.error_while_reading_wml message)]
  | .twml_exception user_message _ => [Event.twml_show user_message]
  | .other _ => []

/-- The two actions of the save-management block of play_game: deleting the saves and
writing the automatic replay save. -/
def Event.is_save_management : Event → Bool
  | .clean_saves _ => true
  | .replay_save => true
  | _ => false

/-- The actions that are not part of store_carryover. -/
def Event.not_carryover (e : Event) : Prop :=
  e.is_carryover = false

/-! ## Concrete collaborators, for running the embedding -/

/-- A scripted set of collaborators.  The world is the number of scenarios started so
far; `valid()` holds while it is below `scenarios`; the scenario number `n` ends with
`outcome n` and leaves `next n` as the recorded next scenario. -/
structure script where
  controller : playsingle_controller
  globals : resources
  scenarios : Nat
  outcome : Nat → Except game_exception LEVEL_RESULT
  next : Nat → String
  linger : linger_exit
  faked : Bool
  cancel : Bool
  wait : mp_ui_result
  connect : mp_ui_result
  delete_saves : Bool
  save_replays : Bool

/-- The collaborators that follow a script. -/
def scripted (sc : script) : Env Nat where
  village_income := 1
  base_income := 2
  debug := false
  ALWAYS_USE_MP_CONTROLLER := false
  delete_saves := fun _ => sc.delete_saves
  save_replays := fun _ => sc.save_replays
  faked := fun _ => sc.faked
  nconnections := fun _ => 0
  playcontroller := fun _ => sc.controller
  globals := fun _ => sc.globals
  valid := fun _ w => decide (w < sc.scenarios)
  expand_scenario := fun gs w => (gs, w)
  expand_carryover := fun gs w => (gs, w)
  convert_to_start_save := fun gs w => (gs, w)
  set_snapshot := fun _ gs w => (gs, w)
  set_scenario := fun cfg gs w => ({ gs with starting_pos := cfg }, w)
  to_bool := fun v d => if v = "" then d else decide (v = "yes")
  to_int := fun _ d => d
  hash := fun _ => ""
  end_level_write := fun _ cfg => cfg
  random_generate_scenario := fun _ _ w => (.ok config.blank, w)
  read_map := fun _ w => (.ok "", w)
  random_generate_map := fun _ _ w => (.ok "", w)
  play_single := fun _ gs w =>
    (sc.outcome w,
      { gs with carryover_sides_start := gs.carryover_sides_start.set "next_scenario" (sc.next w) },
      w + 1)
  play_mp := fun _ _ _ gs w =>
    (sc.outcome w,
      { gs with carryover_sides_start := gs.carryover_sides_start.set "next_scenario" (sc.next w) },
      w + 1)
  maybe_linger := fun gs w => (sc.linger, gs, w)
  show_message_continue := fun w => (sc.cancel, w)
  goto_mp_wait := fun _ gs w => (sc.wait, gs, w)
  connect_engine := fun _ gs w => (gs, w)
  goto_mp_connect := fun gs w => (sc.connect, gs, w)
  start_game := fun gs w => (gs, w)
  play_replay_level := fun _ gs w => (sc.outcome w, gs, w + 1)

/-- End-level data of a won scenario: 50 percent carryover, gold bonus, report shown. -/
def sample_end_level : end_level_data where
  transient := { carryover_report := true }
  prescenario_save := true
  replay_save := true
  proceed_to_next_level := true
  gold_bonus := true
  carryover_percentage := 50

/-- Four sides: only the first one is persistent, human and not lost. -/
def sample_teams : List team :=
  [ { persistent := true, lost := false, is_human := true, gold := 104, current_player := "ann" },
    { persistent := true, lost := false, is_human := false, gold := 70, current_player := "ai" },
    { persistent := false, lost := false, is_human := true, gold := 30, current_player := "bob" },
    { persistent := true, lost := true, is_human := true, gold := 12, current_player := "cy" } ]

/-- A controller at turn 17 of 20 on a map with three villages. -/
def sample_controller : playsingle_controller where
  teams := sample_teams
  villages := 3
  tod := { number_of_turns := 20, turn := 17 }
  end_level := sample_end_level
  is_host := false
  to_config := config.blank

/-- Process-wide values that go with `sample_controller`. -/
def sample_globals : resources where
  next_scenario := "two"
  teams := sample_teams
  is_observer := false
  save_id := 7

/-- A session state at the start of a campaign. -/
def sample_gamestate : saved_game where
  classification := { label := "", abbrev_ := "TC", campaign_type := CAMPAIGN_TYPE.SCENARIO }
  carryover_sides := config.blank
  carryover_sides_start := config.blank
  replay_start := config.blank
  replay_data := config.mk [("command", "move")] []
  starting_pos := config.mk [("name", "one")] []
  mp_settings :=
    { name := "", hash := "", scenario_data := config.blank, mp_scenario := "",
      mp_scenario_name := "", num_turns := 0, saved_game := true, use_map_settings := false }

/-- The state reached when a collaborator call returns: its session state, its world, and
the trace with the action added. -/
def St.after {W α : Type} (s : St W) (r : α × saved_game × W) (e : Event) : St W :=
  { gamestate := r.2.1, world := r.2.2, trace := s.trace ++ [e] }

/-- A script of one won scenario followed by nothing. -/
def sample_script : script where
  controller := sample_controller
  globals := sample_globals
  scenarios := 1
  outcome := fun _ => .ok LEVEL_RESULT.VICTORY
  next := fun _ => "two"
  linger := linger_exit.returned
  faked := true
  cancel := false
  wait := mp_ui_result.other 0
  connect := mp_ui_result.other 0
  delete_saves := true
  save_replays := true

/-- A script whose first scenario is quit by the player. -/
def quit_script : script :=
  { sample_script with outcome := fun _ => .ok LEVEL_RESULT.QUIT }

/-- A script of two scenarios on a multiplayer host: the first one is lost, the second
one is quit.  The end-level data of the lost scenario has proceed_to_next_level set and
the next scenario is "two". -/
def defeat_script : script :=
  { sample_script with
    scenarios := 2
    outcome := fun n => if n = 0 then .ok LEVEL_RESULT.DEFEAT else .ok LEVEL_RESULT.QUIT }

/-- The script `defeat_script` with an end-level data that does not proceed. -/
def last_defeat_script : script :=
  { defeat_script with
    controller :=
      { sample_controller with
        end_level := { sample_end_level with proceed_to_next_level := false } } }

/-- A script in which a multiplayer client watches the scenario as an observer and
declines to continue. -/
def observer_script : script :=
  { sample_script with outcome := fun _ => .ok LEVEL_RESULT.OBSERVER_END, cancel := true }

/-- A script whose scenario throws a game error. -/
def error_script : script :=
  { sample_script with outcome := fun _ => .error (game_exception.game_error "boom") }

/-- A script on a display that is not headless: the scenario is won and the player quits
during linger (`maybe_linger` throws an end_level_exception whose result is QUIT). -/
def linger_quit_script : script :=
  { sample_script with
    faked := false
    linger := linger_exit.end_level_exception LEVEL_RESULT.QUIT }

/-- A controller with one persistent human side that holds 30000000 gold. -/
def rich_controller : playsingle_controller :=
  { sample_controller with
    teams :=
      [ { persistent := true, lost := false, is_human := true, gold := 30000000,
          current_player := "rich" } ] }

/-- End-level data with 80 percent carryover and no gold bonus. -/
def rich_end_level : end_level_data :=
  { sample_end_level with gold_bonus := false, carryover_percentage := 80 }

/-- The scripted collaborators with `game_config::village_income` set to the largest
`int`. -/
def rich_village_env : Env Nat :=
  { scripted sample_script with village_income := 2147483647 }

/-- A controller on a map with three villages, one turn before the last one, whose only
side is persistent, human and holds no gold. -/
def last_turn_controller : playsingle_controller :=
  { sample_controller with
    tod := { number_of_turns := 18, turn := 17 }
    teams :=
      [ { persistent := true, lost := false, is_human := true, gold := 0,
          current_player := "poor" } ] }

/-- End-level data with gold bonus and nothing carried over. -/
def zero_percent_end_level : end_level_data :=
  { sample_end_level with carryover_percentage := 0 }

/-- The state in which a run starts: nothing has happened yet. -/
def sample_state : St Nat where
  gamestate := sample_gamestate
  world := 0
  trace := []

/-- The session state of the sample run after its only scenario. -/
def sample_gamestate_after : saved_game :=
  { sample_gamestate with
    classification := { label := "TC-one", abbrev_ := "TC", campaign_type := CAMPAIGN_TYPE.SCENARIO }
    carryover_sides :=
      config.mk [("next_underlying_unit_id", "7")] [("end_level_data", config.mk [] [])]
    carryover_sides_start := config.mk [("next_scenario", "two")] [] }

/-- The trace of the sample run when the loop of play_game is left. -/
def sample_trace_after : List Event :=
  [Event.expand_scenario, Event.expand_carryover, Event.play_scenario false,
    Event.store_carryover_called LEVEL_RESULT.VICTORY, Event.report_victory 60 104 5 3 15,
    Event.show_transient_message "Victory"
      [report_item.text "<b>You have emerged victorious!</b>\n\n",
        report_item.text "\n<b>ann</b>\n", report_item.victory 60 104 5 3 15],
    Event.set_snapshot, Event.clean_saves "TC-one", Event.replay_save,
    Event.convert_to_start_save, Event.recorder_clear, Event.expand_scenario]

/-! ## Facts about the embedding -/

theorem get_set_value (key val : String) (l : List (String × String)) :
    (set_value key val l).lookup key = some val := by
  induction l with
  | nil => simp [set_value, List.lookup]
  | cons p rest ih =>
    obtain ⟨k, v⟩ := p
    by_cases h : k = key
    · simp [set_value, h, List.lookup]
    · have h2 : (key == k) = false := by
        simp only [beq_eq_false_iff_ne, ne_eq]
        exact fun e => h e.symm
      simp [set_value, h, List.lookup, h2, ih]

theorem config_get_set (c : config) (key val : String) : (c.set key val).get key = val := by
  simp [config.set, config.get, config.values, get_set_value]

theorem div100rounded_eq_round_half_up (num : Int) :
    div100rounded num = round_half_up ((num : ℚ) / 100) := by
  unfold div100rounded round_half_up
  symm
  rw [Int.floor_eq_iff]
  have h1 : 100 * ((num + 50) / 100) ≤ num + 50 := Int.mul_ediv_self_le (by norm_num)
  have h2 : num + 50 < 100 * ((num + 50) / 100) + 100 := Int.lt_mul_ediv_self_add (by norm_num)
  have h1q : (100 : ℚ) * (((num + 50) / 100 : ℤ) : ℚ) ≤ (num : ℚ) + 50 := by exact_mod_cast h1
  have h2q : (num : ℚ) + 50 < (100 : ℚ) * (((num + 50) / 100 : ℤ) : ℚ) + 100 := by
    exact_mod_cast h2
  constructor <;> linarith

theorem to_int_of_range (z : Int) (h : in_int_range z) : to_int z = z := by
  unfold in_int_range at h
  unfold to_int
  omega

theorem to_int_congr (a b : Int) (h : a % 4294967296 = b % 4294967296) :
    to_int a = to_int b := by
  unfold to_int
  omega

theorem to_size_t_modEq (a : Int) : Int.ModEq 4294967296 (to_size_t a) a := by
  unfold to_size_t Int.ModEq
  omega

/-- Inside the range of `int` the bonus per turn is the integer
villages * village_income + base_income. -/
theorem finishing_bonus_per_turn_of_range {W : Type} (env : Env W)
    (pc : playsingle_controller)
    (h : in_int_range ((pc.villages : Int) * env.village_income + env.base_income)) :
    finishing_bonus_per_turn env pc =
      (pc.villages : Int) * env.village_income + env.base_income := by
  unfold finishing_bonus_per_turn
  have h1 : Int.ModEq 4294967296
      (to_size_t
        (to_size_t (to_size_t (pc.villages : Int) * to_size_t env.village_income) +
          to_size_t env.base_income))
      ((pc.villages : Int) * env.village_income + env.base_income) :=
    (to_size_t_modEq _).trans
      (((to_size_t_modEq _).trans
        ((to_size_t_modEq _).mul (to_size_t_modEq _))).add (to_size_t_modEq _))
  rw [to_int_congr _ _ h1, to_int_of_range _ h]

theorem turns_left_nonneg (pc : playsingle_controller) : turns_left pc > -1 := by
  unfold turns_left
  have := le_max_left (0 : Int) (to_int (pc.tod.number_of_turns - pc.tod.turn))
  omega

theorem turns_left_of_range (pc : playsingle_controller)
    (h : in_int_range (pc.tod.number_of_turns - pc.tod.turn)) :
    turns_left pc = max 0 (pc.tod.number_of_turns - pc.tod.turn) := by
  unfold turns_left
  rw [to_int_of_range _ h]

/-- Inside the range of `int` the carried gold of a team is the rounded value of
(gold + bonus) * percentage / 100. -/
theorem carryover_gold_of_range (bonus percentage : Int) (t : team)
    (hsum : in_int_range (t.gold + bonus))
    (hproduct : in_int_range ((t.gold + bonus) * percentage)) :
    carryover_gold bonus percentage t =
      round_half_up ((((t.gold + bonus) * percentage : ℤ) : ℚ) / 100) := by
  unfold carryover_gold
  rw [to_int_of_range _ hsum, to_int_of_range _ hproduct, div100rounded_eq_round_half_up]

theorem count_persistent_fold (teams : List team) (n : Int) :
    teams.foldl (fun n t => if t.persistent then n + 1 else n) n =
      n + (teams.countP (fun t => t.persistent) : Int) := by
  induction teams generalizing n with
  | nil => simp
  | cons t rest ih =>
    simp only [List.foldl_cons, ih, List.countP_cons]
    by_cases h : t.persistent = true
    · simp [h]; ring
    · simp [h]

theorem count_persistent_pos (teams : List team) (h : ∃ t ∈ teams, t.persistent = true) :
    count_persistent teams > 0 := by
  unfold count_persistent
  rw [count_persistent_fold]
  have : 0 < teams.countP (fun t => t.persistent) := List.countP_pos_iff.mpr h
  omega

theorem skipped_eq_not_carries (t : team) : skipped t = !carries t := by
  unfold skipped carries
  cases t.persistent <;> cases t.lost <;> cases t.is_human <;> rfl

theorem carryover_fold_calls (persistent_teams per_turn left bonus percentage : Int)
    (teams : List team) (acc : List report_item × List Event) :
    report_victory_calls
        (teams.foldl (carryover_team persistent_teams per_turn left bonus percentage) acc).2 =
      report_victory_calls acc.2 ++
        (teams.filter carries).map
          (fun t => (carryover_gold bonus percentage t, t.gold, per_turn, left, bonus)) := by
  induction teams generalizing acc with
  | nil => simp
  | cons t rest ih =>
    rw [List.foldl_cons, ih]
    by_cases h : carries t = true
    · simp [carryover_team, skipped_eq_not_carries, h, report_victory_calls,
        List.filterMap_append]
    · simp [carryover_team, skipped_eq_not_carries, h]

theorem carryover_fold_report (persistent_teams per_turn left bonus percentage : Int)
    (teams : List team) (acc : List report_item × List Event) :
    (teams.foldl (carryover_team persistent_teams per_turn left bonus percentage) acc).1 =
      acc.1 ++
        ((teams.filter carries).map
          (fun t =>
            (if persistent_teams > 1 then
              [report_item.text ("\n<b>" ++ t.current_player ++ "</b>\n")] else []) ++
            [report_item.victory (carryover_gold bonus percentage t) t.gold
              per_turn left bonus])).flatten := by
  induction teams generalizing acc with
  | nil => simp
  | cons t rest ih =>
    rw [List.foldl_cons, ih]
    by_cases h : carries t = true
    · by_cases hp : persistent_teams > 1
      · simp [carryover_team, skipped_eq_not_carries, h, hp]
      · simp [carryover_team, skipped_eq_not_carries, h, hp]
    · simp [carryover_team, skipped_eq_not_carries, h]

theorem report_victory_calls_append (a b : List Event) :
    report_victory_calls (a ++ b) = report_victory_calls a ++ report_victory_calls b := by
  simp [report_victory_calls, List.filterMap_append]

theorem report_victory_calls_called (res : LEVEL_RESULT) :
    report_victory_calls [Event.store_carryover_called res] = [] := rfl

theorem report_victory_calls_transient (title : String) (report : List report_item) :
    report_victory_calls [Event.show_transient_message title report] = [] := rfl

/-- The calls of report_victory made by store_carryover, in all cases. -/
theorem store_carryover_calls {W : Type} (env : Env W) (pc : playsingle_controller)
    (end_level : end_level_data) (res : LEVEL_RESULT) (s : St W) :
    report_victory_calls (store_carryover env pc end_level res s).trace =
      report_victory_calls s.trace ++
        if 1 ≤ (env.globals s.world).teams.length ∧
            carryover_block_runs (count_persistent pc.teams)
              (decide ((env.globals s.world).next_scenario ≠ "") &&
                decide ((env.globals s.world).next_scenario ≠ "null"))
              end_level s.gamestate.classification.campaign_type = true then
          (pc.teams.filter carries).map
            (fun t =>
              (carryover_gold (finishing_bonus env pc end_level)
                  end_level.carryover_percentage t,
                t.gold, finishing_bonus_per_turn env pc, turns_left pc,
                finishing_bonus env pc end_level))
        else [] := by
  unfold store_carryover
  simp only [St.log]
  split_ifs with h1 h2 h3 h4 h5 h6 h7 h8 <;>
    first
    | omega
    | (exfalso; omega)
    | (exfalso; simp_all; done)
    | (simp [report_victory_calls_append, carryover_fold_calls, report_victory_calls_called,
        report_victory_calls_transient]; done)
    | (simp [report_victory_calls_append]; rfl)

/-- The transient message of store_carryover when the carryover block runs and the
report is to be shown. -/
theorem store_carryover_message {W : Type} (env : Env W) (pc : playsingle_controller)
    (end_level : end_level_data) (res : LEVEL_RESULT) (s : St W)
    (hteams : 1 ≤ (env.globals s.world).teams.length)
    (hrun : carryover_block_runs (count_persistent pc.teams)
      (decide ((env.globals s.world).next_scenario ≠ "") &&
        decide ((env.globals s.world).next_scenario ≠ "null"))
      end_level s.gamestate.classification.campaign_type = true)
    (hreport : end_level.transient.carryover_report = true) :
    (store_carryover env pc end_level res s).trace.getLast? =
      some (Event.show_transient_message (report_header (env.globals s.world).is_observer res).1
        ((report_header (env.globals s.world).is_observer res).2 ++
          ((pc.teams.filter carries).map
            (fun t =>
              (if count_persistent pc.teams > 1 then
                [report_item.text ("\n<b>" ++ t.current_player ++ "</b>\n")] else []) ++
              [report_item.victory
                (carryover_gold (finishing_bonus env pc end_level)
                  end_level.carryover_percentage t)
                t.gold (finishing_bonus_per_turn env pc) (turns_left pc)
                (finishing_bonus env pc end_level)])).flatten)) := by
  have hlen : ¬ (env.globals s.world).teams.length < 1 := by omega
  unfold store_carryover
  simp only [St.log, hlen, if_false, hrun, if_true, hreport]
  rw [carryover_fold_report]
  simp

/-! ### The loop of play_game -/

theorem while_loop_succ {W : Type} (env : Env W)
    (skip_replay network_game blindfold_replay is_unit_test : Bool) (fuel : Nat)
    (io_type : io_type_t) (s : St W) :
    while_loop env skip_replay network_game blindfold_replay is_unit_test (fuel + 1) io_type s =
      if env.valid s.gamestate s.world = true then
        match loop_body env skip_replay network_game blindfold_replay is_unit_test io_type s with
        | .returned res s1 => some (.returned res s1)
        | .again io_type1 s1 =>
          while_loop env skip_replay network_game blindfold_replay is_unit_test fuel io_type1 s1
      else some (.not_valid s) := rfl

theorem while_loop_from_head {W : Type} (env : Env W)
    (skip_replay network_game blindfold_replay is_unit_test : Bool) (k : Nat) :
    ∀ (io_type : io_type_t) (s : St W) (io_type1 : io_type_t) (s1 : St W) (fuel : Nat),
      loop_head env skip_replay network_game blindfold_replay is_unit_test k io_type s =
          some (io_type1, s1) →
      while_loop env skip_replay network_game blindfold_replay is_unit_test (k + fuel) io_type s =
        while_loop env skip_replay network_game blindfold_replay is_unit_test fuel io_type1 s1 := by
  induction k with
  | zero =>
    intro io_type s io_type1 s1 fuel h
    simp only [loop_head, Option.some.injEq, Prod.mk.injEq] at h
    obtain ⟨h1, h2⟩ := h
    subst h1 h2
    simp
  | succ k ih =>
    intro io_type s io_type1 s1 fuel h
    have hk : k + 1 + fuel = (k + fuel) + 1 := by omega
    rw [hk]
    unfold loop_head at h
    rw [while_loop_succ]
    by_cases hv : env.valid s.gamestate s.world = true
    · rw [if_pos hv] at h
      rw [if_pos hv]
      cases hb : loop_body env skip_replay network_game blindfold_replay is_unit_test io_type s with
      | returned r s2 => rw [hb] at h; simp at h
      | again io2 s2 =>
        rw [hb] at h
        exact ih io2 s2 io_type1 s1 fuel h
    · rw [if_neg hv] at h
      simp at h

/-- A `return` inside the body, in a trip that the loop reaches, is the result of
play_game. -/
theorem play_game_of_returned {W : Type} (env : Env W)
    (skip_replay network_game blindfold_replay is_unit_test : Bool) (k fuel : Nat)
    (io_type0 io_type : io_type_t) (s0 s : St W)
    (res : Except game_exception LEVEL_RESULT) (s1 : St W)
    (hhead : loop_head env skip_replay network_game blindfold_replay is_unit_test k io_type0
      (loop_entry env s0) = some (io_type, s))
    (hvalid : env.valid s.gamestate s.world = true)
    (hbody : loop_body env skip_replay network_game blindfold_replay is_unit_test io_type s =
      loop_step.returned res s1) :
    play_game env io_type0 skip_replay network_game blindfold_replay is_unit_test
      (k + (fuel + 1)) s0 = some (res, s1) := by
  unfold play_game
  rw [while_loop_from_head env _ _ _ _ k io_type0 _ io_type s (fuel + 1) hhead]
  rw [while_loop_succ, if_pos hvalid, hbody]

/-- The body of the loop for a scenario that ended normally. -/
theorem loop_body_of_ok {W : Type} (env : Env W)
    (skip_replay network_game blindfold_replay is_unit_test : Bool)
    (io_type io_type1 : io_type_t) (s s1 : St W) (res : LEVEL_RESULT)
    (end_level : end_level_data)
    (htry : try_block env skip_replay blindfold_replay io_type s =
      (.ok (res, end_level), io_type1, s1)) :
    loop_body env skip_replay network_game blindfold_replay is_unit_test io_type s =
      after_scenario env network_game is_unit_test res end_level io_type1 s1 := by
  unfold loop_body
  rw [htry]

/-- The body of the loop for a scenario that ended by an exception. -/
theorem loop_body_of_error {W : Type} (env : Env W)
    (skip_replay network_game blindfold_replay is_unit_test : Bool)
    (io_type io_type1 : io_type_t) (s s1 : St W) (e : game_exception)
    (htry : try_block env skip_replay blindfold_replay io_type s = (.error e, io_type1, s1)) :
    loop_body env skip_replay network_game blindfold_replay is_unit_test io_type s =
      loop_step.returned (handle_exception e s1).1 (handle_exception e s1).2 := by
  unfold loop_body
  rw [htry]

/-- The stretch scenario_end for the outcome QUIT. -/
theorem scenario_end_quit {W : Type} (env : Env W) (is_unit_test : Bool)
    (end_level : end_level_data) (io_type : io_type_t) (s : St W) :
    ∃ s1, scenario_end env is_unit_test LEVEL_RESULT.QUIT end_level io_type s =
        flow.returned LEVEL_RESULT.QUIT s1 ∧
      s1.trace = s.trace ++
        (if is_unit_test = true then [] else [Event.convert_to_start_save, Event.recorder_clear]) := by
  unfold scenario_end
  by_cases hu : is_unit_test = true
  · exact ⟨s, by simp [hu], by simp [hu]⟩
  · refine ⟨(((save_management env LEVEL_RESULT.QUIT end_level io_type s).call
      env.convert_to_start_save).log Event.convert_to_start_save).log Event.recorder_clear,
      by simp only [if_neg hu, true_or, if_true], ?_⟩
    simp [hu, save_management, game_end, St.log, St.call]

theorem linger_return_quit {W : Type} (env : Env W) (s : St W)
    (hfaked : env.faked s.world = false)
    (hquit : (env.maybe_linger s.gamestate s.world).1 =
      linger_exit.end_level_exception LEVEL_RESULT.QUIT) :
    linger env s = linger_step.return_quit
      { gamestate := (env.maybe_linger s.gamestate s.world).2.1,
        world := (env.maybe_linger s.gamestate s.world).2.2,
        trace := s.trace ++ [Event.maybe_linger] } := by
  unfold linger
  simp only [hfaked, if_true, hquit]

theorem negotiate_returned {W : Type} (env : Env W) (network_game : Bool)
    (res r : LEVEL_RESULT) (io_type : io_type_t) (s s1 : St W)
    (h : negotiate env network_game res io_type s = flow.returned r s1) :
    r = LEVEL_RESULT.QUIT := by
  unfold negotiate negotiate_server at h
  dsimp only at h
  split_ifs at h <;> first
    | (simp only [flow.returned.injEq] at h; exact h.1.symm)

/-- The block save_management only adds to the trace, and what it adds is a deletion of
the saves under the current label or a replay save. -/
theorem save_management_adds {W : Type} (env : Env W) (res : LEVEL_RESULT)
    (end_level : end_level_data) (io_type : io_type_t) (s : St W) :
    ∃ added, save_management env res end_level io_type s = { s with trace := s.trace ++ added } ∧
      added =
        (if game_end res io_type = true ∧ env.delete_saves s.world = true then
          [Event.clean_saves s.gamestate.classification.label] else []) ++
        (if game_end res io_type = true ∧ env.save_replays s.world = true ∧
            end_level.replay_save = true then [Event.replay_save] else []) := by
  unfold save_management
  by_cases hg : game_end res io_type = true
  · by_cases hd : env.delete_saves s.world = true
    · by_cases hr : env.save_replays s.world = true ∧ end_level.replay_save = true
      · exact ⟨[Event.clean_saves s.gamestate.classification.label, Event.replay_save],
          by simp [hg, hd, hr, St.log], by simp [hg, hd, hr]⟩
      · exact ⟨[Event.clean_saves s.gamestate.classification.label],
          by simp [hg, hd, hr, St.log], by simp [hg, hd, hr]⟩
    · by_cases hr : env.save_replays s.world = true ∧ end_level.replay_save = true
      · exact ⟨[Event.replay_save], by simp [hg, hd, hr, St.log], by simp [hg, hd, hr]⟩
      · exact ⟨[], by simp [hg, hd, hr], by simp [hg, hd, hr]⟩
  · exact ⟨[], by simp [hg], by simp [hg]⟩

/-- The stretch scenario_end outside unit tests: the save management, the conversion to a
start save, the clearing of the recorder, then the test for a next scenario. -/
theorem scenario_end_steps {W : Type} (env : Env W) (res : LEVEL_RESULT)
    (end_level : end_level_data) (io_type : io_type_t) (s : St W) :
    ∃ s2 saves,
      save_management env res end_level io_type s = { s with trace := s.trace ++ saves } ∧
      saves =
        (if game_end res io_type = true ∧ env.delete_saves s.world = true then
          [Event.clean_saves s.gamestate.classification.label] else []) ++
        (if game_end res io_type = true ∧ env.save_replays s.world = true ∧
            end_level.replay_save = true then [Event.replay_save] else []) ∧
      s2.gamestate = (env.convert_to_start_save s.gamestate s.world).1 ∧
      s2.world = (env.convert_to_start_save s.gamestate s.world).2 ∧
      s2.trace = s.trace ++ saves ++ [Event.convert_to_start_save, Event.recorder_clear] ∧
      scenario_end env false res end_level io_type s =
        (if res = LEVEL_RESULT.QUIT ∨ end_level.proceed_to_next_level = false ∨
            (env.convert_to_start_save s.gamestate s.world).1.carryover_sides_start.get
              "next_scenario" = "" then flow.returned res s2
          else flow.next s2) := by
  obtain ⟨saves, hsave, hsaves⟩ := save_management_adds env res end_level io_type s
  refine ⟨(({ s with trace := s.trace ++ saves } : St W).call env.convert_to_start_save).log
    Event.convert_to_start_save |>.log Event.recorder_clear, saves, hsave, hsaves, rfl, rfl,
    ?_, ?_⟩
  · simp [St.log, St.call]
  · unfold scenario_end
    rw [hsave]
    rfl

theorem playmp_before_linger_server {W : Type} (env : Env W)
    (skip_replay blindfold_replay : Bool) (s : St W) :
    (playmp_before_linger env skip_replay blindfold_replay io_type_t.IO_SERVER s).2.1 =
      io_type_t.IO_SERVER := by
  unfold playmp_before_linger
  dsimp only
  split
  · rfl
  · split_ifs <;> rfl

theorem playmp_scenario_io {W : Type} (env : Env W)
    (skip_replay blindfold_replay : Bool) (io_type : io_type_t) (s : St W) :
    (playmp_scenario env skip_replay blindfold_replay io_type s).2.1 =
      (playmp_before_linger env skip_replay blindfold_replay io_type s).2.1 := by
  unfold playmp_scenario
  rcases playmp_before_linger env skip_replay blindfold_replay io_type s with
    ⟨e | ⟨res, end_level⟩, io_type1, s4⟩
  · rfl
  · dsimp only
    split_ifs
    · cases linger env s4 <;> rfl
    · rfl

theorem try_block_server {W : Type} (env : Env W) (skip_replay blindfold_replay : Bool)
    (s : St W) :
    (try_block env skip_replay blindfold_replay io_type_t.IO_SERVER s).2.1 =
      io_type_t.IO_SERVER := by
  unfold try_block
  split
  · rfl
  · unfold run_scenario
    dsimp only
    rw [playmp_scenario_io, playmp_before_linger_server]

/-- What save_management adds does not start a next scenario. -/
theorem saves_do_not_start {W : Type} (env : Env W) (res : LEVEL_RESULT)
    (end_level : end_level_data) (io_type : io_type_t) (s : St W) (e : Event)
    (he : e ∈
      (if game_end res io_type = true ∧ env.delete_saves s.world = true then
        [Event.clean_saves s.gamestate.classification.label] else []) ++
      (if game_end res io_type = true ∧ env.save_replays s.world = true ∧
          end_level.replay_save = true then [Event.replay_save] else [])) :
    e.starts_next_scenario = false := by
  rw [List.mem_append] at he
  rcases he with he | he
  · split_ifs at he
    · rw [List.mem_singleton] at he; subst he; rfl
    · simp at he
  · split_ifs at he
    · rw [List.mem_singleton] at he; subst he; rfl
    · simp at he

/-! ### Traces of the try block -/

theorem Steps.refl {W : Type} (P : Event → Prop) (s : St W) : Steps P s s :=
  ⟨[], by simp, by simp⟩

theorem Steps.same {W : Type} (P : Event → Prop) (s s1 : St W) (h : s1.trace = s.trace) :
    Steps P s s1 :=
  ⟨[], by simp [h], by simp⟩

theorem Steps.trans {W : Type} {P : Event → Prop} {s s1 s2 : St W}
    (h1 : Steps P s s1) (h2 : Steps P s1 s2) : Steps P s s2 := by
  obtain ⟨a1, ht1, hp1⟩ := h1
  obtain ⟨a2, ht2, hp2⟩ := h2
  refine ⟨a1 ++ a2, by rw [ht2, ht1, List.append_assoc], ?_⟩
  intro e he
  rcases List.mem_append.mp he with h | h
  · exact hp1 e h
  · exact hp2 e h

theorem Steps.one {W : Type} {P : Event → Prop} (s s1 : St W) (e : Event)
    (h : s1.trace = s.trace ++ [e]) (hp : P e) : Steps P s s1 :=
  ⟨[e], h, by simpa using hp⟩

theorem Steps.mono {W : Type} {P Q : Event → Prop} {s s1 : St W}
    (h : Steps P s s1) (hpq : ∀ e, P e → Q e) : Steps Q s s1 := by
  obtain ⟨a, ht, hp⟩ := h
  exact ⟨a, ht, fun e he => hpq e (hp e he)⟩

theorem and_then_steps {W α β : Type} {P : Event → Prop} (s : St W)
    (r : Except game_exception α × St W)
    (f : α → St W → Except game_exception β × St W)
    (hr : Steps P s r.2) (hf : ∀ a s1, Steps P s1 (f a s1).2) :
    Steps P s (and_then r f).2 := by
  unfold and_then
  split
  · exact hr
  · exact hr.trans (hf _ _)

theorem resolve_scenario_steps {W : Type} (env : Env W) (s : St W) :
    Steps Event.is_quiet s (resolve_scenario env s).2 := by
  unfold resolve_scenario
  dsimp only
  apply and_then_steps
  · split_ifs
    · exact Steps.one _ _ Event.random_generate_scenario rfl ⟨rfl, rfl, rfl⟩
    · exact Steps.same _ _ _ rfl
  · intro _ s1
    apply and_then_steps
    · split_ifs
      · exact Steps.one _ _ (Event.read_map _) rfl ⟨rfl, rfl, rfl⟩
      · exact Steps.refl _ _
    · intro map_data s2
      split_ifs
      · exact Steps.one _ _ Event.random_generate_map rfl ⟨rfl, rfl, rfl⟩
      · exact Steps.refl _ _

theorem linger_steps {W : Type} (env : Env W) (s : St W) :
    Steps Event.is_quiet s (linger env s).state := by
  unfold linger
  split_ifs
  · dsimp only
    split
    · exact Steps.one _ _ Event.maybe_linger rfl ⟨rfl, rfl, rfl⟩
    · split_ifs
      · exact Steps.one _ _ Event.maybe_linger rfl ⟨rfl, rfl, rfl⟩
      · exact Steps.one _ _ Event.maybe_linger rfl ⟨rfl, rfl, rfl⟩
    · exact Steps.one _ _ Event.maybe_linger rfl ⟨rfl, rfl, rfl⟩
  · exact Steps.refl _ _

theorem snapshot_steps {W : Type} (env : Env W) (s : St W) :
    Steps Event.is_quiet s (snapshot env s) :=
  Steps.one _ _ Event.set_snapshot rfl ⟨rfl, rfl, rfl⟩

/-- In playmp_scenario an outcome OBSERVER_END is recorded directly: up to the linger
block the trace gains the carryover expansion and the scenario only, and
carryover_sides_start["next_scenario"] is the next scenario of the game data. -/
theorem playmp_before_linger_observer {W : Type} (env : Env W)
    (skip_replay blindfold_replay : Bool) (io_type : io_type_t) (s : St W)
    (end_level : end_level_data)
    (h : (playmp_before_linger env skip_replay blindfold_replay io_type s).1 =
      .ok (LEVEL_RESULT.OBSERVER_END, end_level)) :
    (playmp_before_linger env skip_replay blindfold_replay io_type s).2.2.trace =
        s.trace ++ [Event.expand_carryover, Event.play_scenario true] ∧
      (playmp_before_linger env skip_replay blindfold_replay io_type
          s).2.2.gamestate.carryover_sides_start.get "next_scenario" =
        (env.globals (playmp_before_linger env skip_replay blindfold_replay io_type
          s).2.2.world).next_scenario := by
  revert h
  unfold playmp_before_linger
  dsimp only
  split
  · intro h
    simp at h
  · rename_i res hres
    intro h
    by_cases h1 : res = LEVEL_RESULT.QUIT
    · simp [h1] at h
    · by_cases h2 : res = LEVEL_RESULT.OBSERVER_END
      · subst h2
        simp [St.log, St.call, record_end_level, config_get_set]
      · by_cases h3 : res = LEVEL_RESULT.SKIP_TO_LINGER
        · simp [h3] at h
        · simp [h1, h2, h3] at h

theorem quiet_not_carryover (e : Event) (h : e.is_quiet) : e.not_carryover :=
  h.1

theorem playmp_scenario_observer {W : Type} (env : Env W)
    (skip_replay blindfold_replay : Bool) (io_type io_type1 : io_type_t) (s s1 : St W)
    (end_level : end_level_data)
    (h : playmp_scenario env skip_replay blindfold_replay io_type s =
      (.ok (LEVEL_RESULT.OBSERVER_END, end_level), io_type1, s1)) :
    Steps Event.not_carryover s s1 := by
  unfold playmp_scenario at h
  rcases hb : playmp_before_linger env skip_replay blindfold_replay io_type s with
    ⟨e | ⟨res, el⟩, iob, s4⟩
  · rw [hb] at h
    simp at h
  · rw [hb] at h
    dsimp only at h
    have hbefore : res = LEVEL_RESULT.OBSERVER_END → Steps Event.not_carryover s s4 := by
      intro hres
      have h1 := (playmp_before_linger_observer env skip_replay blindfold_replay io_type s el
        (by rw [hb, hres])).1
      rw [hb] at h1
      exact ⟨_, h1, by
        intro e he
        simp only [List.mem_cons, List.mem_singleton, List.not_mem_nil, or_false] at he
        rcases he with rfl | rfl <;> rfl⟩
    have hlinger := (linger_steps env s4).mono quiet_not_carryover
    split_ifs at h with hq
    · cases hl : linger env s4 with
      | fall_through s5 =>
        rw [hl] at h hlinger
        simp only [Prod.mk.injEq, Except.ok.injEq] at h
        obtain ⟨⟨hres, _⟩, _, hs⟩ := h
        subst hs
        exact ((hbefore hres).trans hlinger).trans
          ((snapshot_steps env s5).mono quiet_not_carryover)
      | return_quit s5 =>
        rw [hl] at h
        simp at h
      | threw e s5 =>
        rw [hl] at h
        simp at h
    · simp only [Prod.mk.injEq, Except.ok.injEq] at h
      obtain ⟨⟨hres, _⟩, _, hs⟩ := h
      subst hs
      exact (hbefore hres).trans ((snapshot_steps env s4).mono quiet_not_carryover)

/-- A multiplayer try block that ends with OBSERVER_END performs no action of
store_carryover. -/
theorem try_block_observer {W : Type} (env : Env W)
    (skip_replay blindfold_replay : Bool) (io_type io_type1 : io_type_t) (s s1 : St W)
    (end_level : end_level_data)
    (hmp : io_type ≠ io_type_t.IO_NONE ∨ env.ALWAYS_USE_MP_CONTROLLER = true)
    (h : try_block env skip_replay blindfold_replay io_type s =
      (.ok (LEVEL_RESULT.OBSERVER_END, end_level), io_type1, s1)) :
    Steps Event.not_carryover s s1 := by
  unfold try_block at h
  have hres := (resolve_scenario_steps env s).mono quiet_not_carryover
  rcases hr : resolve_scenario env s with ⟨e | u, s2⟩
  · rw [hr] at h
    simp at h
  · rw [hr] at h hres
    dsimp only at h
    have hrun : run_scenario env skip_replay blindfold_replay io_type s2 =
        playmp_scenario env skip_replay blindfold_replay io_type s2 := by
      unfold run_scenario
      cases io_type with
      | IO_NONE =>
        rcases hmp with hmp | hmp
        · exact absurd rfl hmp
        · simp [hmp]
      | IO_SERVER => rfl
      | IO_CLIENT => rfl
    rw [hrun] at h
    exact hres.trans (playmp_scenario_observer env _ _ io_type io_type1 s2 s1 end_level h)

theorem game_end_iff (res : LEVEL_RESULT) (io_type : io_type_t) :
    game_end res io_type = true ↔
      (res = LEVEL_RESULT.VICTORY ∨
        (res = LEVEL_RESULT.DEFEAT ∧
          (io_type = io_type_t.IO_SERVER ∨ io_type = io_type_t.IO_CLIENT))) := by
  cases res <;> cases io_type <;> simp [game_end]

theorem handle_exception_caught {W : Type} (e : game_exception) (s : St W)
    (hkind : e.caught_by_play_game = true) :
    ∃ added, handle_exception e s = (.ok LEVEL_RESULT.QUIT, { s with trace := s.trace ++ added }) ∧
      added =
        error_dialog e ∧
      (∃ d ∈ added, d.is_error_dialog = true) ∧
      ∀ d ∈ added, d.touches_saves = false ∧ d.starts_next_scenario = false := by
  cases e with
  | other what => simp [game_exception.caught_by_play_game] at hkind
  | load_game_failed m =>
    exact ⟨_, rfl, rfl, ⟨_, List.mem_singleton.mpr rfl, rfl⟩, by
      intro d hd; rw [List.mem_singleton.mp hd]; exact ⟨rfl, rfl⟩⟩
  | game_error m =>
    exact ⟨_, rfl, rfl, ⟨_, List.mem_singleton.mpr rfl, rfl⟩, by
      intro d hd; rw [List.mem_singleton.mp hd]; exact ⟨rfl, rfl⟩⟩
  | incorrect_map_format_error m =>
    exact ⟨_, rfl, rfl, ⟨_, List.mem_singleton.mpr rfl, rfl⟩, by
      intro d hd; rw [List.mem_singleton.mp hd]; exact ⟨rfl, rfl⟩⟩
  | twml_exception u d =>
    exact ⟨_, rfl, rfl, ⟨_, List.mem_singleton.mpr rfl, rfl⟩, by
      intro d hd; rw [List.mem_singleton.mp hd]; exact ⟨rfl, rfl⟩⟩
  | config_error m =>
    refine ⟨[Event.cerr "caught config::error...\n",
      Event.show_error_message (error_message.error_while_reading_wml m)], ?_, rfl,
      ⟨Event.show_error_message (error_message.error_while_reading_wml m), by simp, rfl⟩, ?_⟩
    · simp [handle_exception, St.log]
    · intro d hd
      simp only [List.mem_cons, List.mem_singleton, List.not_mem_nil, or_false] at hd
      rcases hd with rfl | rfl <;> exact ⟨rfl, rfl⟩

/-! ### The snapshot at the end of the scenario functions -/

theorem carryover_fold_adds (persistent_teams per_turn left bonus percentage : Int)
    (teams : List team) (acc : List report_item × List Event) :
    ∃ added,
      (teams.foldl (carryover_team persistent_teams per_turn left bonus percentage) acc).2 =
          acc.2 ++ added ∧
        ∀ e ∈ added, e.is_carryover = true := by
  induction teams generalizing acc with
  | nil => exact ⟨[], by simp, by simp⟩
  | cons t rest ih =>
    rw [List.foldl_cons]
    obtain ⟨added, h1, h2⟩ :=
      ih (carryover_team persistent_teams per_turn left bonus percentage acc t)
    by_cases hs : skipped t = true
    · refine ⟨added, ?_, h2⟩
      rw [h1]
      simp [carryover_team, hs]
    · refine ⟨Event.report_victory (carryover_gold bonus percentage t) t.gold
        per_turn left bonus :: added, ?_, ?_⟩
      · rw [h1]
        simp [carryover_team, hs]
      · intro e he
        rcases List.mem_cons.mp he with h | h
        · rw [h]; rfl
        · exact h2 e h

/-- Everything that store_carryover adds to the trace is one of its own actions. -/
theorem store_carryover_steps {W : Type} (env : Env W) (pc : playsingle_controller)
    (end_level : end_level_data) (res : LEVEL_RESULT) (s : St W) :
    Steps (fun e => e.is_carryover = true) s (store_carryover env pc end_level res s) := by
  unfold store_carryover
  dsimp only
  by_cases hlen : (env.globals s.world).teams.length < 1
  · simp only [St.log, hlen, if_true]
    exact Steps.one _ _ (Event.store_carryover_called res) rfl rfl
  · obtain ⟨added, ha, hp⟩ := carryover_fold_adds (count_persistent pc.teams)
      (finishing_bonus_per_turn env pc) (turns_left pc) (finishing_bonus env pc end_level)
      end_level.carryover_percentage pc.teams
      ((report_header (env.globals s.world).is_observer res).2,
        s.trace ++ [Event.store_carryover_called res])
    by_cases hrun : carryover_block_runs (count_persistent pc.teams)
        (decide ((env.globals s.world).next_scenario ≠ "") &&
          decide ((env.globals s.world).next_scenario ≠ "null"))
        end_level s.gamestate.classification.campaign_type = true
    · have hfold : Steps (fun e => e.is_carryover = true) s
          ({ s with trace :=
              (pc.teams.foldl
                (carryover_team (count_persistent pc.teams) (finishing_bonus_per_turn env pc)
                  (turns_left pc) (finishing_bonus env pc end_level)
                  end_level.carryover_percentage)
                ((report_header (env.globals s.world).is_observer res).2,
                  s.trace ++ [Event.store_carryover_called res])).2 } : St W) := by
        refine ⟨Event.store_carryover_called res :: added, ?_, ?_⟩
        · rw [ha]
          simp
        · intro e he
          rcases List.mem_cons.mp he with h | h
          · rw [h]; rfl
          · exact hp e h
      by_cases hrep : end_level.transient.carryover_report = true
      · simp only [St.log, hlen, if_false, hrun, if_true, hrep]
        exact hfold.trans (Steps.one _ _ _ rfl rfl)
      · simp only [St.log, hlen, if_false, hrun, if_true, hrep]
        exact hfold
    · have hcalled : Steps (fun e => e.is_carryover = true) s
          ({ s with trace := s.trace ++ [Event.store_carryover_called res] } : St W) :=
        Steps.one _ _ (Event.store_carryover_called res) rfl rfl
      by_cases hrep : end_level.transient.carryover_report = true
      · simp only [St.log, hlen, if_false, hrun, if_true, hrep]
        exact hcalled.trans (Steps.one _ _ _ rfl rfl)
      · simp only [St.log, hlen, if_false, hrun, if_true, hrep]
        exact hcalled

theorem carryover_not_snapshot (e : Event) (h : e.is_carryover = true) :
    e ≠ Event.set_snapshot := by
  intro he
  rw [he] at h
  exact absurd h (by decide)

theorem playsingle_before_linger_steps {W : Type} (env : Env W) (skip_replay : Bool)
    (s : St W) :
    Steps (fun e => e ≠ Event.set_snapshot) s (playsingle_before_linger env skip_replay s).2 := by
  unfold playsingle_before_linger
  dsimp only
  split
  · exact ⟨[Event.expand_carryover, Event.play_scenario false], by simp [St.log, St.call],
      by simp⟩
  · split_ifs
    · refine Steps.trans ?_
        ((store_carryover_steps _ _ _ _ _).mono carryover_not_snapshot)
      exact ⟨[Event.expand_carryover, Event.play_scenario false],
        by simp [record_end_level, St.log, St.call], by simp⟩
    · exact ⟨[Event.expand_carryover, Event.play_scenario false],
        by simp [record_end_level, St.log, St.call], by simp⟩
    · exact ⟨[Event.expand_carryover, Event.play_scenario false],
        by simp [record_end_level, St.log, St.call], by simp⟩

theorem playmp_before_linger_steps {W : Type} (env : Env W)
    (skip_replay blindfold_replay : Bool) (io_type : io_type_t) (s : St W) :
    Steps (fun e => e ≠ Event.set_snapshot) s
      (playmp_before_linger env skip_replay blindfold_replay io_type s).2.2 := by
  unfold playmp_before_linger
  dsimp only
  split
  · exact ⟨[Event.expand_carryover, Event.play_scenario true], by simp [St.log, St.call],
      by simp⟩
  · split_ifs
    all_goals first
      | (refine Steps.trans ?_
          ((store_carryover_steps _ _ _ _ _).mono carryover_not_snapshot)
         exact ⟨[Event.expand_carryover, Event.play_scenario true],
          by simp [record_end_level, St.log, St.call], by simp⟩)
      | exact ⟨[Event.expand_carryover, Event.play_scenario true],
          by simp [record_end_level, St.log, St.call], by simp⟩

/-- A linger that ends in `return QUIT;` has added the linger to the trace and nothing
else. -/
theorem linger_quit_trace {W : Type} (env : Env W) (s s1 : St W)
    (h : linger env s = linger_step.return_quit s1) :
    s1.trace = s.trace ++ [Event.maybe_linger] := by
  unfold linger at h
  dsimp only at h
  split_ifs at h with hf
  cases hl : (env.maybe_linger s.gamestate s.world).1 with
  | returned => rw [hl] at h; simp at h
  | threw e => rw [hl] at h; simp at h
  | end_level_exception result =>
    rw [hl] at h
    dsimp only at h
    split_ifs at h
    simp only [linger_step.return_quit.injEq] at h
    rw [← h]

/-- Every normal return of playsingle_scenario comes right after set_snapshot, except the
return from the handler of the linger: there the result is QUIT, the last action is the
linger, and the call has made no snapshot at all. -/
theorem playsingle_scenario_return {W : Type} (env : Env W) (skip_replay : Bool)
    (s s1 : St W) (res : LEVEL_RESULT) (end_level : end_level_data)
    (h : playsingle_scenario env skip_replay s = (.ok (res, end_level), s1)) :
    s1.trace.getLast? = some Event.set_snapshot ∨
      (res = LEVEL_RESULT.QUIT ∧ s1.trace.getLast? = some Event.maybe_linger ∧
        Steps (fun e => e ≠ Event.set_snapshot) s s1) := by
  unfold playsingle_scenario at h
  have hsteps := playsingle_before_linger_steps env skip_replay s
  rcases hb : playsingle_before_linger env skip_replay s with ⟨e | ⟨res0, el0⟩, s4⟩
  · rw [hb] at h
    simp at h
  · rw [hb] at h hsteps
    dsimp only at h hsteps
    split_ifs at h with hq
    · cases hl : linger env s4 with
      | fall_through s5 =>
        rw [hl] at h
        simp only [Prod.mk.injEq, Except.ok.injEq] at h
        left
        rw [← h.2]
        simp [snapshot, St.log]
      | return_quit s5 =>
        rw [hl] at h
        simp only [Prod.mk.injEq, Except.ok.injEq] at h
        obtain ⟨⟨hres, _⟩, hs⟩ := h
        subst hs
        have ht := linger_quit_trace env s4 s5 hl
        right
        refine ⟨hres.symm, by simp [ht], hsteps.trans (Steps.one _ _ _ ht (by simp))⟩
      | threw e s5 =>
        rw [hl] at h
        simp at h
    · simp only [Prod.mk.injEq, Except.ok.injEq] at h
      left
      rw [← h.2]
      simp [snapshot, St.log]

/-- Every normal return of playmp_scenario comes right after set_snapshot, except the
return from the handler of the linger: there the result is QUIT, the last action is the
linger, and the call has made no snapshot at all. -/
theorem playmp_scenario_return {W : Type} (env : Env W)
    (skip_replay blindfold_replay : Bool) (io_type io_type1 : io_type_t)
    (s s1 : St W) (res : LEVEL_RESULT) (end_level : end_level_data)
    (h : playmp_scenario env skip_replay blindfold_replay io_type s =
      (.ok (res, end_level), io_type1, s1)) :
    s1.trace.getLast? = some Event.set_snapshot ∨
      (res = LEVEL_RESULT.QUIT ∧ s1.trace.getLast? = some Event.maybe_linger ∧
        Steps (fun e => e ≠ Event.set_snapshot) s s1) := by
  unfold playmp_scenario at h
  have hsteps := playmp_before_linger_steps env skip_replay blindfold_replay io_type s
  rcases hb : playmp_before_linger env skip_replay blindfold_replay io_type s with
    ⟨e | ⟨res0, el0⟩, iob, s4⟩
  · rw [hb] at h
    simp at h
  · rw [hb] at h hsteps
    dsimp only at h hsteps
    split_ifs at h with hq
    · cases hl : linger env s4 with
      | fall_through s5 =>
        rw [hl] at h
        simp only [Prod.mk.injEq, Except.ok.injEq] at h
        left
        rw [← h.2.2]
        simp [snapshot, St.log]
      | return_quit s5 =>
        rw [hl] at h
        simp only [Prod.mk.injEq, Except.ok.injEq] at h
        obtain ⟨⟨hres, _⟩, _, hs⟩ := h
        subst hs
        have ht := linger_quit_trace env s4 s5 hl
        right
        refine ⟨hres.symm, by simp [ht], hsteps.trans (Steps.one _ _ _ ht (by simp))⟩
      | threw e s5 =>
        rw [hl] at h
        simp at h
    · simp only [Prod.mk.injEq, Except.ok.injEq] at h
      left
      rw [← h.2.2]
      simp [snapshot, St.log]

/-! ### The trip after the save management -/

theorem loop_head_succ {W : Type} (env : Env W)
    (skip_replay network_game blindfold_replay is_unit_test : Bool) (k : Nat)
    (io_type : io_type_t) (s : St W) :
    loop_head env skip_replay network_game blindfold_replay is_unit_test (k + 1) io_type s =
      if env.valid s.gamestate s.world = true then
        match loop_body env skip_replay network_game blindfold_replay is_unit_test io_type s with
        | .returned _ _ => none
        | .again io_type1 s1 =>
          loop_head env skip_replay network_game blindfold_replay is_unit_test k io_type1 s1
      else none := rfl

/-- A trip that ends at the end of the body leads to the next test of the loop. -/
theorem loop_head_snoc {W : Type} (env : Env W)
    (skip_replay network_game blindfold_replay is_unit_test : Bool) (k : Nat) :
    ∀ (io_type0 : io_type_t) (s0 : St W) (io_type io_type1 : io_type_t) (s s1 : St W),
      loop_head env skip_replay network_game blindfold_replay is_unit_test k io_type0 s0 =
          some (io_type, s) →
      env.valid s.gamestate s.world = true →
      loop_body env skip_replay network_game blindfold_replay is_unit_test io_type s =
          loop_step.again io_type1 s1 →
      loop_head env skip_replay network_game blindfold_replay is_unit_test (k + 1) io_type0 s0 =
        some (io_type1, s1) := by
  induction k with
  | zero =>
    intro io_type0 s0 io_type io_type1 s s1 h hvalid hbody
    simp only [loop_head, Option.some.injEq, Prod.mk.injEq] at h
    obtain ⟨h1, h2⟩ := h
    subst h1 h2
    rw [loop_head_succ, if_pos hvalid, hbody]
    rfl
  | succ k ih =>
    intro io_type0 s0 io_type io_type1 s s1 h hvalid hbody
    rw [loop_head_succ] at h
    rw [loop_head_succ]
    by_cases hv : env.valid s0.gamestate s0.world = true
    · rw [if_pos hv] at h
      rw [if_pos hv]
      cases hb : loop_body env skip_replay network_game blindfold_replay is_unit_test
          io_type0 s0 with
      | returned r s2 => rw [hb] at h; simp at h
      | again io2 s2 =>
        rw [hb] at h
        exact ih io2 s2 io_type io_type1 s s1 h hvalid hbody
    · rw [if_neg hv] at h
      simp at h

theorem observer_dialog_steps {W : Type} (env : Env W) (res : LEVEL_RESULT) (s : St W) :
    Steps (fun e => e.is_save_management = false) s (observer_dialog env res s).state := by
  unfold observer_dialog
  dsimp only
  split_ifs
  · exact Steps.one _ _ Event.show_message_continue rfl rfl
  · exact Steps.one _ _ Event.show_message_continue rfl rfl
  · exact Steps.refl _ _

theorem prepare_connect_trace {W : Type} (env : Env W) (network_game : Bool) (s : St W) :
    (prepare_connect env network_game s).2.trace =
      s.trace ++ [Event.expand_carryover, Event.connect_engine_created] := by
  simp [prepare_connect, St.log, St.call]

theorem negotiate_server_steps {W : Type} (env : Env W) (network_game : Bool) (s : St W) :
    Steps (fun e => e.is_save_management = false) s
      (negotiate_server env network_game s).state := by
  have hp : Steps (fun e => e.is_save_management = false) s
      (prepare_connect env network_game s).2 :=
    ⟨_, prepare_connect_trace env network_game s, by decide⟩
  unfold negotiate_server
  dsimp only
  split_ifs
  · exact hp.trans (Steps.one _ _ Event.goto_mp_connect rfl rfl)
  · exact hp.trans (Steps.one _ _ Event.goto_mp_connect rfl rfl)
  · exact hp.trans (Steps.one _ _ Event.start_game rfl rfl)

theorem negotiate_steps {W : Type} (env : Env W) (network_game : Bool) (res : LEVEL_RESULT)
    (io_type : io_type_t) (s : St W) :
    Steps (fun e => e.is_save_management = false) s
      (negotiate env network_game res io_type s).state := by
  have he : Steps (fun e => e.is_save_management = false) s (expanded env s) :=
    Steps.one _ _ Event.expand_scenario rfl rfl
  unfold negotiate
  dsimp only
  split_ifs
  · exact Steps.one _ _ (Event.goto_mp_wait _) rfl rfl
  · exact Steps.one _ _ (Event.goto_mp_wait _) rfl rfl
  · exact he.trans (negotiate_server_steps env network_game (expanded env s))
  · exact he

theorem checkpoint_steps {W : Type} (env : Env W) (save_game_after_scenario : Bool)
    (s : St W) :
    Steps (fun e => e.is_save_management = false) s
      (checkpoint env save_game_after_scenario s) := by
  unfold checkpoint
  dsimp only
  split_ifs
  · exact Steps.one _ _ Event.scenariostart_save rfl rfl
  · exact Steps.same _ _ _ rfl
  · exact Steps.refl _ _

/-- The rest of a trip of the loop of play_game, from the dialog of the observer on: it
ends in a return of play_game or at the end of the body, and it holds no action of the
save management. -/
theorem after_scenario_end {W : Type} (env : Env W) (network_game : Bool)
    (res : LEVEL_RESULT) (end_level : end_level_data) (io_type : io_type_t) (s1 s2 : St W)
    (hend : scenario_end env false res end_level io_type s1 = flow.next s2) :
    ∃ s3, Steps (fun e => e.is_save_management = false) s2 s3 ∧
      ((∃ r, after_scenario env network_game false res end_level io_type s1 =
          loop_step.returned (.ok r) s3) ∨
        after_scenario env network_game false res end_level io_type s1 =
          loop_step.again io_type s3) := by
  have hd := observer_dialog_steps env res s2
  unfold after_scenario
  rw [hend]
  dsimp only
  cases hdialog : observer_dialog env res s2 with
  | returned r sd =>
    rw [hdialog] at hd
    exact ⟨sd, hd, Or.inl ⟨r, rfl⟩⟩
  | next sd =>
    rw [hdialog] at hd
    have hn := negotiate_steps env network_game res io_type sd
    dsimp only
    cases hneg : negotiate env network_game res io_type sd with
    | returned r sn =>
      rw [hneg] at hn
      exact ⟨sn, hd.trans hn, Or.inl ⟨r, rfl⟩⟩
    | next sn =>
      rw [hneg] at hn
      exact ⟨checkpoint env end_level.prescenario_save sn,
        (hd.trans hn).trans (checkpoint_steps env _ sn), Or.inr rfl⟩

theorem playmp_before_linger_io_none {W : Type} (env : Env W)
    (skip_replay blindfold_replay : Bool) (io_type : io_type_t) (s : St W) :
    (playmp_before_linger env skip_replay blindfold_replay io_type s).2.1 =
        io_type_t.IO_NONE ↔ io_type = io_type_t.IO_NONE := by
  unfold playmp_before_linger
  dsimp only
  split
  · exact Iff.rfl
  · split_ifs <;> cases io_type <;> simp_all

/-- The IO mode after the try block is IO_NONE exactly when it was IO_NONE before: the
only change that playmp_scenario makes is from IO_CLIENT to IO_SERVER. -/
theorem try_block_io_none {W : Type} (env : Env W) (skip_replay blindfold_replay : Bool)
    (io_type : io_type_t) (s : St W) :
    (try_block env skip_replay blindfold_replay io_type s).2.1 = io_type_t.IO_NONE ↔
      io_type = io_type_t.IO_NONE := by
  unfold try_block
  split
  · exact Iff.rfl
  · unfold run_scenario
    cases io_type with
    | IO_NONE =>
      dsimp only
      split_ifs
      · simp
      · rw [playmp_scenario_io, playmp_before_linger_io_none]
    | IO_SERVER =>
      dsimp only
      rw [playmp_scenario_io, playmp_before_linger_io_none]
    | IO_CLIENT =>
      dsimp only
      rw [playmp_scenario_io, playmp_before_linger_io_none]

/-! ## The claims -/

/-- C1 fails as stated: a persistent human side that is not lost holds 30000000 gold, the
bonus is 0 and the carryover percentage is 80.  The `int` product 30000000 * 80 does not
fit in 32 bits; with the wrap of two's complement hardware the carried gold passed to
report_victory is -18949673, while (gold + finishing_bonus) * carryover_percentage / 100
rounded is 24000000. -/
theorem store_carryover_gold_overflows :
    (1 ≤ ((scripted sample_script).globals sample_state.world).teams.length ∧
        (∃ t ∈ rich_controller.teams, t.persistent = true) ∧
        (((scripted sample_script).globals sample_state.world).next_scenario ≠ "" ∧
          ((scripted sample_script).globals sample_state.world).next_scenario ≠ "null") ∧
        rich_end_level.proceed_to_next_level = true) ∧
      finishing_bonus (scripted sample_script) rich_controller rich_end_level = 0 ∧
      report_victory_calls
          (store_carryover (scripted sample_script) rich_controller rich_end_level
            LEVEL_RESULT.VICTORY sample_state).trace =
        [(-18949673, 30000000, 5, 3, 0)] ∧
      round_half_up ((((30000000 + 0) * 80 : ℤ) : ℚ) / 100) = 24000000 :=
  ⟨by decide, by decide, by decide,
    (div100rounded_eq_round_half_up ((30000000 + 0) * 80)).symm.trans (by decide)⟩

/-- C1 (amended): whenever the carryover block of store_carryover runs (at least one team
in the global team list, at least one persistent team, and either a next scenario that is
neither empty nor "null" together with proceed_to_next_level, or a TEST campaign), the
calls of report_victory are exactly one per team that is persistent, not lost and human, in
the order of the teams, each with the carried gold that the `int` arithmetic of the code
gives; for every team whose sum gold + finishing_bonus and whose product with
carryover_percentage lie in the range of `int`, that carried gold is
(gold + finishing_bonus) * carryover_percentage / 100 rounded to the nearest integer, halves
rounded up.  No call is made for any other team, and the report shown by the transient
message (when carryover_report is set) consists of the header and the entries of those
teams only. -/
theorem store_carryover_carried_gold {W : Type} (env : Env W) (pc : playsingle_controller)
    (end_level : end_level_data) (res : LEVEL_RESULT) (s : St W)
    (hteams : 1 ≤ (env.globals s.world).teams.length)
    (hpersistent : ∃ t ∈ pc.teams, t.persistent = true)
    (hnext : (((env.globals s.world).next_scenario ≠ "" ∧
          (env.globals s.world).next_scenario ≠ "null") ∧
          end_level.proceed_to_next_level = true) ∨
        s.gamestate.classification.campaign_type = CAMPAIGN_TYPE.TEST) :
    report_victory_calls (store_carryover env pc end_level res s).trace =
        report_victory_calls s.trace ++
          (pc.teams.filter (fun t => t.persistent && !t.lost && t.is_human)).map
            (fun t =>
              (carryover_gold (finishing_bonus env pc end_level)
                  end_level.carryover_percentage t,
                t.gold, finishing_bonus_per_turn env pc, turns_left pc,
                finishing_bonus env pc end_level)) ∧
      (∀ t : team,
        in_int_range (t.gold + finishing_bonus env pc end_level) →
        in_int_range ((t.gold + finishing_bonus env pc end_level) *
          end_level.carryover_percentage) →
        carryover_gold (finishing_bonus env pc end_level) end_level.carryover_percentage t =
          round_half_up
            ((((t.gold + finishing_bonus env pc end_level) *
              end_level.carryover_percentage : ℤ) : ℚ) / 100)) ∧
      (end_level.transient.carryover_report = true →
        (store_carryover env pc end_level res s).trace.getLast? =
          some (Event.show_transient_message
            (report_header (env.globals s.world).is_observer res).1
            ((report_header (env.globals s.world).is_observer res).2 ++
              ((pc.teams.filter (fun t => t.persistent && !t.lost && t.is_human)).map
                (fun t =>
                  (if count_persistent pc.teams > 1 then
                    [report_item.text ("\n<b>" ++ t.current_player ++ "</b>\n")] else []) ++
                  [report_item.victory
                    (carryover_gold (finishing_bonus env pc end_level)
                      end_level.carryover_percentage t)
                    t.gold (finishing_bonus_per_turn env pc) (turns_left pc)
                    (finishing_bonus env pc end_level)])).flatten))) := by
  have hrun : carryover_block_runs (count_persistent pc.teams)
      (decide ((env.globals s.world).next_scenario ≠ "") &&
        decide ((env.globals s.world).next_scenario ≠ "null"))
      end_level s.gamestate.classification.campaign_type = true := by
    have hpos := count_persistent_pos pc.teams hpersistent
    unfold carryover_block_runs
    rcases hnext with ⟨⟨h1, h2⟩, h3⟩ | h
    · simp [hpos, h1, h2, h3]
    · simp [hpos, h]
  have hc : (fun t : team => t.persistent && !t.lost && t.is_human) = carries := by
    funext t; rfl
  rw [hc]
  refine ⟨?_, ?_, ?_⟩
  · rw [store_carryover_calls, if_pos ⟨hteams, hrun⟩]
  · intro t hsum hproduct
    exact carryover_gold_of_range _ _ t hsum hproduct
  · intro hreport
    rw [store_carryover_message env pc end_level res s hteams hrun hreport]

/-- C1 (amended), run on the sample controller: one call, for the first team, with
carried gold 60 = round(119 * 50 / 100). -/
theorem store_carryover_carried_gold_witness :
    report_victory_calls
        (store_carryover (scripted sample_script) sample_controller sample_end_level
          LEVEL_RESULT.VICTORY sample_state).trace = [(60, 104, 5, 3, 15)] ∧
      carryover_gold (finishing_bonus (scripted sample_script) sample_controller
          sample_end_level) sample_end_level.carryover_percentage
          { persistent := true, lost := false, is_human := true, gold := 104,
            current_player := "ann" } =
        round_half_up
          ((((104 + finishing_bonus (scripted sample_script) sample_controller
            sample_end_level) * sample_end_level.carryover_percentage : ℤ) : ℚ) / 100) :=
  ⟨(store_carryover_carried_gold (scripted sample_script) sample_controller sample_end_level
      LEVEL_RESULT.VICTORY sample_state (by decide) (by decide) (Or.inl (by decide))).1.trans
      (by decide),
    (store_carryover_carried_gold (scripted sample_script) sample_controller sample_end_level
      LEVEL_RESULT.VICTORY sample_state (by decide) (by decide) (Or.inl (by decide))).2.1
      { persistent := true, lost := false, is_human := true, gold := 104,
        current_player := "ann" }
      (by unfold in_int_range; decide) (by unfold in_int_range; decide)⟩

/-- C2 fails as stated: with three villages, `game_config::village_income` 2147483647,
`game_config::base_income` 2, the gold_bonus flag set and one turn left, the `size_t` value
3 * 2147483647 + 2 = 6442450943 is narrowed to the `int` 2147483647, and that is the
finishing bonus which store_carryover passes to report_victory; the formula of the claim
gives 6442450943. -/
theorem finishing_bonus_overflows :
    zero_percent_end_level.gold_bonus = true ∧
      finishing_bonus_per_turn rich_village_env last_turn_controller = 2147483647 ∧
      finishing_bonus rich_village_env last_turn_controller zero_percent_end_level =
        2147483647 ∧
      ((last_turn_controller.villages : Int) * rich_village_env.village_income +
          rich_village_env.base_income) *
        max 0 (last_turn_controller.tod.number_of_turns - last_turn_controller.tod.turn) =
        6442450943 ∧
      report_victory_calls
          (store_carryover rich_village_env last_turn_controller zero_percent_end_level
            LEVEL_RESULT.VICTORY sample_state).trace =
        [(0, 0, 2147483647, 1, 2147483647)] := by
  decide

/-- C2 (amended): the finishing bonus of store_carryover is 0 when the gold_bonus flag of
the end-level data is false, whatever the turns; when the flag is true and
villages * village_income + base_income, number_of_turns - turn and their product with
max(0, number_of_turns - turn) lie in the range of `int`, it is
(villages * village_income + base_income) * max(0, number_of_turns - turn); it is 0 when no
turns remain (number_of_turns - turn in the range of `int` and not positive); and when the
carryover block runs, store_carryover makes one call of report_victory per team that is
persistent, not lost and human, each with this finishing bonus as its last argument. -/
theorem finishing_bonus_value {W : Type} (env : Env W) (pc : playsingle_controller)
    (end_level : end_level_data) :
    (end_level.gold_bonus = false → finishing_bonus env pc end_level = 0) ∧
    (end_level.gold_bonus = true →
      in_int_range ((pc.villages : Int) * env.village_income + env.base_income) →
      in_int_range (pc.tod.number_of_turns - pc.tod.turn) →
      in_int_range (((pc.villages : Int) * env.village_income + env.base_income) *
        max 0 (pc.tod.number_of_turns - pc.tod.turn)) →
      finishing_bonus env pc end_level =
        ((pc.villages : Int) * env.village_income + env.base_income) *
          max 0 (pc.tod.number_of_turns - pc.tod.turn)) ∧
    (pc.tod.number_of_turns ≤ pc.tod.turn →
      in_int_range (pc.tod.number_of_turns - pc.tod.turn) →
      finishing_bonus env pc end_level = 0) ∧
    (∀ (res : LEVEL_RESULT) (s : St W),
      1 ≤ (env.globals s.world).teams.length →
      carryover_block_runs (count_persistent pc.teams)
        (decide ((env.globals s.world).next_scenario ≠ "") &&
          decide ((env.globals s.world).next_scenario ≠ "null"))
        end_level s.gamestate.classification.campaign_type = true →
      (report_victory_calls (store_carryover env pc end_level res s).trace).map
          (fun call => call.2.2.2.2) =
        (report_victory_calls s.trace).map (fun call => call.2.2.2.2) ++
          (pc.teams.filter (fun t => t.persistent && !t.lost && t.is_human)).map
            (fun _ => finishing_bonus env pc end_level)) := by
  have hleft := turns_left_nonneg pc
  refine ⟨?_, ?_, ?_, ?_⟩
  · intro h
    unfold finishing_bonus
    simp [h]
  · intro h hper hturns hproduct
    unfold finishing_bonus
    rw [if_pos ⟨h, hleft⟩, finishing_bonus_per_turn_of_range env pc hper,
      turns_left_of_range pc hturns, to_int_of_range _ hproduct]
  · intro hno hturns
    have h0 : turns_left pc = 0 := by
      rw [turns_left_of_range pc hturns]
      exact max_eq_left (by omega)
    unfold finishing_bonus
    split_ifs
    · rw [h0, mul_zero]
      rfl
    · rfl
  · intro res s hteams hrun
    have hc : (fun t : team => t.persistent && !t.lost && t.is_human) = carries := by
      funext t; rfl
    rw [store_carryover_calls, if_pos ⟨hteams, hrun⟩, List.map_append, List.map_map, hc]
    rfl

/-- C2 (amended), run on the sample controller (three villages, income 1 per village
and 2 as base, turn 17 of 20): the bonus is (3 * 1 + 2) * 3 = 15, and the one call of
report_victory carries it. -/
theorem finishing_bonus_value_witness :
    finishing_bonus (scripted sample_script) sample_controller sample_end_level =
        ((sample_controller.villages : Int) * (scripted sample_script).village_income +
            (scripted sample_script).base_income) *
          max 0 (sample_controller.tod.number_of_turns - sample_controller.tod.turn) ∧
      (report_victory_calls
          (store_carryover (scripted sample_script) sample_controller sample_end_level
            LEVEL_RESULT.VICTORY sample_state).trace).map (fun call => call.2.2.2.2) = [15] :=
  ⟨(finishing_bonus_value (scripted sample_script) sample_controller sample_end_level).2.1
      rfl (by unfold in_int_range; decide) (by unfold in_int_range; decide)
      (by unfold in_int_range; decide),
    ((finishing_bonus_value (scripted sample_script) sample_controller
      sample_end_level).2.2.2 LEVEL_RESULT.VICTORY sample_state (by decide) (by decide)).trans
      (by decide)⟩

/-- C3: a call of store_carryover with an empty global team list records the current next
scenario in carryover_sides_start["next_scenario"] and changes nothing else: the other
members of the session state and the world are unchanged and the trace gains only the
entry that marks the call (no report_victory, no transient message, whatever
carryover_report is). -/
theorem store_carryover_without_teams {W : Type} (env : Env W) (pc : playsingle_controller)
    (end_level : end_level_data) (res : LEVEL_RESULT) (s : St W)
    (hteams : (env.globals s.world).teams = []) :
    store_carryover env pc end_level res s =
        { gamestate :=
            { s.gamestate with
              carryover_sides_start :=
                s.gamestate.carryover_sides_start.set "next_scenario"
                  (env.globals s.world).next_scenario },
          world := s.world,
          trace := s.trace ++ [Event.store_carryover_called res] } ∧
      (store_carryover env pc end_level res s).gamestate.carryover_sides_start.get
          "next_scenario" = (env.globals s.world).next_scenario := by
  have h : store_carryover env pc end_level res s =
      { gamestate :=
          { s.gamestate with
            carryover_sides_start :=
              s.gamestate.carryover_sides_start.set "next_scenario"
                (env.globals s.world).next_scenario },
        world := s.world,
        trace := s.trace ++ [Event.store_carryover_called res] } := by
    unfold store_carryover
    simp [St.log, hteams]
  refine ⟨h, ?_⟩
  rw [h]
  exact config_get_set _ _ _

/-- C3, run with no team at all and carryover_report set: the only new entry of the trace
marks the call, and the next scenario is recorded. -/
theorem store_carryover_without_teams_witness :
    (store_carryover (scripted { sample_script with globals := { sample_globals with teams := [] } })
        sample_controller sample_end_level LEVEL_RESULT.VICTORY sample_state).trace =
        [Event.store_carryover_called LEVEL_RESULT.VICTORY] ∧
      (store_carryover (scripted { sample_script with globals := { sample_globals with teams := [] } })
        sample_controller sample_end_level LEVEL_RESULT.VICTORY
        sample_state).gamestate.carryover_sides_start.get "next_scenario" = "two" :=
  ⟨by
      rw [(store_carryover_without_teams
        (scripted { sample_script with globals := { sample_globals with teams := [] } })
        sample_controller sample_end_level LEVEL_RESULT.VICTORY sample_state rfl).1]
      rfl,
    (store_carryover_without_teams
        (scripted { sample_script with globals := { sample_globals with teams := [] } })
        sample_controller sample_end_level LEVEL_RESULT.VICTORY sample_state rfl).2⟩

/-- C4: when the loop of play_game is left because the session state is no longer valid,
play_game returns QUIT after showing the "Unknown scenario" error exactly when
carryover_sides_start["next_scenario"] is neither empty nor "null"; otherwise it shows no
error dialog and returns VICTORY.  In both cases the session state and the world are the
ones in which the loop was left. -/
theorem play_game_after_loop {W : Type} (env : Env W) (io_type : io_type_t)
    (skip_replay network_game blindfold_replay is_unit_test : Bool) (fuel : Nat) (s s1 : St W)
    (hexit : while_loop env skip_replay network_game blindfold_replay is_unit_test fuel io_type
      (loop_entry env s) = some (loop_exit.not_valid s1)) :
    ∃ (res : LEVEL_RESULT) (added : List Event),
      play_game env io_type skip_replay network_game blindfold_replay is_unit_test fuel s =
          some (.ok res, { s1 with trace := s1.trace ++ added }) ∧
        ((res = LEVEL_RESULT.QUIT ∧
            added = [Event.show_error_message (error_message.unknown_scenario
              (s1.gamestate.carryover_sides_start.get "next_scenario"))]) ↔
          (s1.gamestate.carryover_sides_start.get "next_scenario" ≠ "" ∧
            s1.gamestate.carryover_sides_start.get "next_scenario" ≠ "null")) ∧
        ((res = LEVEL_RESULT.VICTORY ∧ ∀ e ∈ added, ∀ m, e ≠ Event.show_error_message m) ↔
          ¬ (s1.gamestate.carryover_sides_start.get "next_scenario" ≠ "" ∧
            s1.gamestate.carryover_sides_start.get "next_scenario" ≠ "null")) := by
  unfold play_game
  rw [hexit]
  by_cases hnext : s1.gamestate.carryover_sides_start.get "next_scenario" ≠ "" ∧
      s1.gamestate.carryover_sides_start.get "next_scenario" ≠ "null"
  · refine ⟨LEVEL_RESULT.QUIT, [Event.show_error_message (error_message.unknown_scenario
      (s1.gamestate.carryover_sides_start.get "next_scenario"))], ?_, ?_, ?_⟩
    · simp only [after_loop, if_pos hnext, St.log]
    · simp [hnext]
    · simp [hnext]
  · by_cases hsc : s1.gamestate.classification.campaign_type = CAMPAIGN_TYPE.SCENARIO ∧
        env.delete_saves s1.world = true
    · refine ⟨LEVEL_RESULT.VICTORY, [Event.clean_saves s1.gamestate.classification.label],
        ?_, ?_, ?_⟩
      · simp only [after_loop, if_neg hnext, if_pos hsc.1, if_pos hsc.2, St.log]
      · simp [hnext]
      · simp [hnext]
    · refine ⟨LEVEL_RESULT.VICTORY, [], ?_, ?_, ?_⟩
      · simp only [after_loop, if_neg hnext, List.append_nil]
        by_cases h1 : s1.gamestate.classification.campaign_type = CAMPAIGN_TYPE.SCENARIO
        · have h2 : ¬ env.delete_saves s1.world = true := fun h => hsc ⟨h1, h⟩
          simp only [if_pos h1, if_neg h2]
        · simp only [if_neg h1]
      · simp [hnext]
      · simp [hnext]

/-- C4, run on the sample script (one won scenario that names "two" as the next one, which
does not exist): the loop is left by its test, and play_game shows the error and returns
QUIT. -/
theorem play_game_after_loop_witness :
    while_loop (scripted sample_script) false false false false 2 io_type_t.IO_NONE
        (loop_entry (scripted sample_script) sample_state) =
        some (loop_exit.not_valid
          { gamestate := sample_gamestate_after, world := 1, trace := sample_trace_after }) ∧
      ∃ (res : LEVEL_RESULT) (added : List Event),
        play_game (scripted sample_script) io_type_t.IO_NONE false false false false 2
            sample_state =
          some (.ok res,
            { gamestate := sample_gamestate_after, world := 1,
              trace := sample_trace_after ++ added }) ∧
        ((res = LEVEL_RESULT.QUIT ∧
            added = [Event.show_error_message (error_message.unknown_scenario
              (sample_gamestate_after.carryover_sides_start.get "next_scenario"))]) ↔
          (sample_gamestate_after.carryover_sides_start.get "next_scenario" ≠ "" ∧
            sample_gamestate_after.carryover_sides_start.get "next_scenario" ≠ "null")) ∧
        ((res = LEVEL_RESULT.VICTORY ∧ ∀ e ∈ added, ∀ m, e ≠ Event.show_error_message m) ↔
          ¬ (sample_gamestate_after.carryover_sides_start.get "next_scenario" ≠ "" ∧
            sample_gamestate_after.carryover_sides_start.get "next_scenario" ≠ "null")) :=
  ⟨rfl,
    play_game_after_loop (scripted sample_script) io_type_t.IO_NONE false false false false 2
      sample_state { gamestate := sample_gamestate_after, world := 1, trace := sample_trace_after }
      rfl⟩

/-- C5: an outcome QUIT ends play_game at once.
(1) In any trip of the loop in which the scenario function returns QUIT, play_game returns
QUIT, and after the return of the scenario function the trace gains nothing (unit test) or
only convert_to_start_save and recorder.clear: no save is deleted or written, no screen is
opened, no scenario is expanded or run.
(2) A quit during linger makes playsingle_scenario and playmp_scenario return QUIT with
the linger as their last action.
(3) A wait screen or a connect screen that returns QUIT makes the negotiation return QUIT
with the screen as its last action, and a negotiation that returns makes play_game return
QUIT in the state in which the screen was left. -/
theorem play_game_quit_at_once {W : Type} (env : Env W)
    (skip_replay network_game blindfold_replay is_unit_test : Bool) :
    (∀ (k fuel : Nat) (io_type0 io_type io_type1 : io_type_t) (s0 s s1 : St W)
        (end_level : end_level_data),
      loop_head env skip_replay network_game blindfold_replay is_unit_test k io_type0
          (loop_entry env s0) = some (io_type, s) →
      env.valid s.gamestate s.world = true →
      try_block env skip_replay blindfold_replay io_type s =
          (.ok (LEVEL_RESULT.QUIT, end_level), io_type1, s1) →
      ∃ s2 added,
        play_game env io_type0 skip_replay network_game blindfold_replay is_unit_test
            (k + (fuel + 1)) s0 = some (.ok LEVEL_RESULT.QUIT, s2) ∧
          s2.trace = s1.trace ++ added ∧
          added = (if is_unit_test = true then []
            else [Event.convert_to_start_save, Event.recorder_clear]) ∧
          ∀ e ∈ added, e.touches_saves = false ∧ e.starts_next_scenario = false) ∧
    (∀ (s s4 : St W) (res : LEVEL_RESULT) (end_level : end_level_data),
      playsingle_before_linger env skip_replay s = (.ok (res, end_level), s4) →
      res ≠ LEVEL_RESULT.QUIT →
      env.faked s4.world = false →
      (env.maybe_linger s4.gamestate s4.world).1 =
          linger_exit.end_level_exception LEVEL_RESULT.QUIT →
      playsingle_scenario env skip_replay s =
        (.ok (LEVEL_RESULT.QUIT, end_level),
          s4.after (env.maybe_linger s4.gamestate s4.world) Event.maybe_linger)) ∧
    (∀ (io_type io_type1 : io_type_t) (s s4 : St W) (res : LEVEL_RESULT)
        (end_level : end_level_data),
      playmp_before_linger env skip_replay blindfold_replay io_type s =
          (.ok (res, end_level), io_type1, s4) →
      res ≠ LEVEL_RESULT.QUIT →
      env.faked s4.world = false →
      (env.maybe_linger s4.gamestate s4.world).1 =
          linger_exit.end_level_exception LEVEL_RESULT.QUIT →
      playmp_scenario env skip_replay blindfold_replay io_type s =
        (.ok (LEVEL_RESULT.QUIT, end_level), io_type1,
          s4.after (env.maybe_linger s4.gamestate s4.world) Event.maybe_linger)) ∧
    (∀ (res : LEVEL_RESULT) (s : St W),
      (env.goto_mp_wait (decide (res = LEVEL_RESULT.OBSERVER_END)) s.gamestate s.world).1 =
          mp_ui_result.QUIT →
      negotiate env network_game res io_type_t.IO_CLIENT s =
        flow.returned LEVEL_RESULT.QUIT
          (s.after (env.goto_mp_wait (decide (res = LEVEL_RESULT.OBSERVER_END)) s.gamestate s.world)
            (Event.goto_mp_wait (decide (res = LEVEL_RESULT.OBSERVER_END))))) ∧
    (∀ (res : LEVEL_RESULT) (s : St W),
      env.valid (expanded env s).gamestate (expanded env s).world = true →
      ((prepare_connect env network_game (expanded env s)).1 = true ∨
        (env.debug = true ∧
          env.nconnections (prepare_connect env network_game (expanded env s)).2.world = 0)) →
      (env.goto_mp_connect (prepare_connect env network_game (expanded env s)).2.gamestate
          (prepare_connect env network_game (expanded env s)).2.world).1 = mp_ui_result.QUIT →
      negotiate env network_game res io_type_t.IO_SERVER s =
        flow.returned LEVEL_RESULT.QUIT
          ((prepare_connect env network_game (expanded env s)).2.after
            (env.goto_mp_connect (prepare_connect env network_game (expanded env s)).2.gamestate
              (prepare_connect env network_game (expanded env s)).2.world)
            Event.goto_mp_connect)) ∧
    (∀ (k fuel : Nat) (io_type0 io_type io_type1 : io_type_t) (s0 s s1 s2 s3 s4 : St W)
        (res r : LEVEL_RESULT) (end_level : end_level_data),
      loop_head env skip_replay network_game blindfold_replay is_unit_test k io_type0
          (loop_entry env s0) = some (io_type, s) →
      env.valid s.gamestate s.world = true →
      try_block env skip_replay blindfold_replay io_type s =
          (.ok (res, end_level), io_type1, s1) →
      scenario_end env is_unit_test res end_level io_type1 s1 = flow.next s2 →
      observer_dialog env res s2 = flow.next s3 →
      negotiate env network_game res io_type1 s3 = flow.returned r s4 →
      r = LEVEL_RESULT.QUIT ∧
        play_game env io_type0 skip_replay network_game blindfold_replay is_unit_test
          (k + (fuel + 1)) s0 = some (.ok LEVEL_RESULT.QUIT, s4)) := by
  refine ⟨?_, ?_, ?_, ?_, ?_, ?_⟩
  · intro k fuel io_type0 io_type io_type1 s0 s s1 end_level hhead hvalid htry
    obtain ⟨s2, hend, htrace⟩ := scenario_end_quit env is_unit_test end_level io_type1 s1
    refine ⟨s2, _, ?_, htrace, rfl, ?_⟩
    · apply play_game_of_returned env _ _ _ _ k fuel io_type0 io_type s0 s _ _ hhead hvalid
      rw [loop_body_of_ok env _ _ _ _ io_type io_type1 s s1 _ end_level htry]
      unfold after_scenario
      rw [hend]
    · intro e he
      split_ifs at he with hu
      · simp at he
      · simp only [List.mem_cons, List.mem_singleton, List.not_mem_nil, or_false] at he
        rcases he with rfl | rfl <;> exact ⟨rfl, rfl⟩
  · intro s s4 res end_level hbefore hres hfaked hquit
    unfold playsingle_scenario
    rw [hbefore]
    simp only [hres, ne_eq, not_false_eq_true, if_true]
    rw [linger_return_quit env s4 hfaked hquit]
    rfl
  · intro io_type io_type1 s s4 res end_level hbefore hres hfaked hquit
    unfold playmp_scenario
    rw [hbefore]
    simp only [hres, ne_eq, not_false_eq_true, if_true]
    rw [linger_return_quit env s4 hfaked hquit]
    rfl
  · intro res s hquit
    unfold negotiate
    simp only [if_true, hquit]
    rfl
  · intro res s hvalid hflag hquit
    unfold negotiate
    rw [if_neg (by decide), if_pos ⟨rfl, hvalid⟩]
    unfold negotiate_server
    simp only [if_pos hflag, hquit, if_true]
    rfl
  · intro k fuel io_type0 io_type io_type1 s0 s s1 s2 s3 s4 res r end_level hhead hvalid htry
      hend hdialog hneg
    have hr := negotiate_returned env network_game res r io_type1 s3 s4 hneg
    refine ⟨hr, ?_⟩
    subst hr
    apply play_game_of_returned env _ _ _ _ k fuel io_type0 io_type s0 s _ _ hhead hvalid
    rw [loop_body_of_ok env _ _ _ _ io_type io_type1 s s1 _ end_level htry]
    unfold after_scenario
    rw [hend]
    simp only [hdialog, hneg]

/-- C5, run on a script whose only scenario is quit: play_game returns QUIT and, after
the scenario function has returned, performs convert_to_start_save and recorder.clear
only. -/
theorem play_game_quit_at_once_witness :
    ∃ s2 added,
      play_game (scripted quit_script) io_type_t.IO_NONE false false false false (0 + (0 + 1))
          sample_state = some (.ok LEVEL_RESULT.QUIT, s2) ∧
        s2.trace =
          (try_block (scripted quit_script) false false io_type_t.IO_NONE
            (loop_entry (scripted quit_script) sample_state)).2.2.trace ++ added ∧
        added = (if false = true then []
          else [Event.convert_to_start_save, Event.recorder_clear]) ∧
        ∀ e ∈ added, e.touches_saves = false ∧ e.starts_next_scenario = false :=
  (play_game_quit_at_once (scripted quit_script) false false false false).1 0 0
    io_type_t.IO_NONE io_type_t.IO_NONE io_type_t.IO_NONE sample_state
    (loop_entry (scripted quit_script) sample_state)
    (try_block (scripted quit_script) false false io_type_t.IO_NONE
      (loop_entry (scripted quit_script) sample_state)).2.2
    sample_end_level rfl rfl rfl

/-- What the code does with a defeat on a host: in a trip of the loop of play_game entered
with IO mode SERVER in which the scenario function returns DEFEAT, the IO mode is still
SERVER, and
(a) if play_game runs as a unit test, or the end-level data has proceed_to_next_level
false, or the recorded next scenario is empty after convert_to_start_save, then play_game
returns DEFEAT and after the scenario it neither expands nor negotiates nor runs nor
checkpoints a next scenario;
(b) otherwise the trip does not return at the test for a next scenario: no dialog is
shown and the negotiation starts by expanding the next scenario. -/
theorem play_game_server_defeat {W : Type} (env : Env W)
    (skip_replay network_game blindfold_replay is_unit_test : Bool) (k fuel : Nat)
    (io_type0 io_type1 : io_type_t) (s0 s s1 : St W) (end_level : end_level_data)
    (hhead : loop_head env skip_replay network_game blindfold_replay is_unit_test k io_type0
      (loop_entry env s0) = some (io_type_t.IO_SERVER, s))
    (hvalid : env.valid s.gamestate s.world = true)
    (htry : try_block env skip_replay blindfold_replay io_type_t.IO_SERVER s =
      (.ok (LEVEL_RESULT.DEFEAT, end_level), io_type1, s1)) :
    io_type1 = io_type_t.IO_SERVER ∧
    ((is_unit_test = true ∨ end_level.proceed_to_next_level = false ∨
        (env.convert_to_start_save s1.gamestate s1.world).1.carryover_sides_start.get
          "next_scenario" = "") →
      ∃ s2 added,
        play_game env io_type0 skip_replay network_game blindfold_replay is_unit_test
            (k + (fuel + 1)) s0 = some (.ok LEVEL_RESULT.DEFEAT, s2) ∧
          s2.trace = s1.trace ++ added ∧
          ∀ e ∈ added, e.starts_next_scenario = false) ∧
    (¬ (is_unit_test = true ∨ end_level.proceed_to_next_level = false ∨
        (env.convert_to_start_save s1.gamestate s1.world).1.carryover_sides_start.get
          "next_scenario" = "") →
      ∃ s2,
        scenario_end env is_unit_test LEVEL_RESULT.DEFEAT end_level io_type1 s1 = flow.next s2 ∧
          observer_dialog env LEVEL_RESULT.DEFEAT s2 = flow.next s2 ∧
          negotiate env network_game LEVEL_RESULT.DEFEAT io_type1 s2 =
            (if env.valid (expanded env s2).gamestate (expanded env s2).world = true then
              negotiate_server env network_game (expanded env s2)
            else flow.next (expanded env s2))) := by
  have hio : io_type1 = io_type_t.IO_SERVER := by
    have h := try_block_server env skip_replay blindfold_replay s
    rw [htry] at h
    exact h
  subst hio
  refine ⟨rfl, ?_, ?_⟩
  · intro hlast
    by_cases hu : is_unit_test = true
    · refine ⟨s1, [], ?_, by simp, by simp⟩
      apply play_game_of_returned env _ _ _ _ k fuel io_type0 _ s0 s _ _ hhead hvalid
      rw [loop_body_of_ok env _ _ _ _ _ _ s s1 _ end_level htry]
      unfold after_scenario scenario_end
      simp [hu]
    · have hu2 : is_unit_test = false := by simpa using hu
      subst hu2
      obtain ⟨s2, saves, _, hsaves, _, _, htrace, hend⟩ :=
        scenario_end_steps env LEVEL_RESULT.DEFEAT end_level io_type_t.IO_SERVER s1
      have hcond : LEVEL_RESULT.DEFEAT = LEVEL_RESULT.QUIT ∨
          end_level.proceed_to_next_level = false ∨
          (env.convert_to_start_save s1.gamestate s1.world).1.carryover_sides_start.get
            "next_scenario" = "" := by
        rcases hlast with h | h | h
        · exact absurd h (by decide)
        · exact Or.inr (Or.inl h)
        · exact Or.inr (Or.inr h)
      rw [if_pos hcond] at hend
      refine ⟨s2, saves ++ [Event.convert_to_start_save, Event.recorder_clear], ?_, ?_, ?_⟩
      · apply play_game_of_returned env _ _ _ _ k fuel io_type0 _ s0 s _ _ hhead hvalid
        rw [loop_body_of_ok env _ _ _ _ _ _ s s1 _ end_level htry]
        unfold after_scenario
        rw [hend]
      · rw [htrace, List.append_assoc]
      · intro e he
        rw [List.mem_append] at he
        rcases he with he | he
        · rw [hsaves] at he
          exact saves_do_not_start env _ end_level _ s1 e he
        · simp only [List.mem_cons, List.mem_singleton, List.not_mem_nil, or_false] at he
          rcases he with rfl | rfl <;> rfl
  · intro hnot
    have hu2 : is_unit_test = false := by
      cases is_unit_test
      · rfl
      · exact absurd (Or.inl rfl) hnot
    subst hu2
    obtain ⟨s2, saves, _, _, _, _, _, hend⟩ :=
      scenario_end_steps env LEVEL_RESULT.DEFEAT end_level io_type_t.IO_SERVER s1
    have hcond : ¬ (LEVEL_RESULT.DEFEAT = LEVEL_RESULT.QUIT ∨
        end_level.proceed_to_next_level = false ∨
        (env.convert_to_start_save s1.gamestate s1.world).1.carryover_sides_start.get
          "next_scenario" = "") := by
      rintro (h | h | h)
      · exact absurd h (by decide)
      · exact hnot (Or.inr (Or.inl h))
      · exact hnot (Or.inr (Or.inr h))
    rw [if_neg hcond] at hend
    refine ⟨s2, hend, ?_, ?_⟩
    · unfold observer_dialog
      rw [if_neg (by decide)]
    · unfold negotiate
      rw [if_neg (by decide)]
      by_cases hv : env.valid (expanded env s2).gamestate (expanded env s2).world = true
      · simp [hv]
      · simp [hv]

/-- A host whose lost scenario has proceed_to_next_level false: play_game returns DEFEAT
and starts nothing of a next scenario. -/
theorem play_game_server_defeat_witness :
    ∃ s2 added,
      play_game (scripted last_defeat_script) io_type_t.IO_SERVER false false false false
          (0 + (0 + 1)) sample_state = some (.ok LEVEL_RESULT.DEFEAT, s2) ∧
        s2.trace =
          (try_block (scripted last_defeat_script) false false io_type_t.IO_SERVER
            (loop_entry (scripted last_defeat_script) sample_state)).2.2.trace ++ added ∧
        ∀ e ∈ added, e.starts_next_scenario = false :=
  (play_game_server_defeat (scripted last_defeat_script) false false false false 0 0
    io_type_t.IO_SERVER io_type_t.IO_SERVER sample_state
    (loop_entry (scripted last_defeat_script) sample_state)
    (try_block (scripted last_defeat_script) false false io_type_t.IO_SERVER
      (loop_entry (scripted last_defeat_script) sample_state)).2.2
    { sample_end_level with proceed_to_next_level := false } rfl rfl rfl).2.1
    (Or.inr (Or.inl rfl))

/-- C7: in a multiplayer trip of the loop of play_game in which playmp_scenario returns
OBSERVER_END and the answer to the dialog "Do you want to continue the campaign?" is
CANCEL, play_game returns OBSERVER_END, and nothing that the trip adds to the trace is an
action of store_carryover (neither its entry, nor report_victory, nor the transient
message).  Up to its linger block playmp_scenario only runs the scenario and assigns the
next scenario of the game data to carryover_sides_start["next_scenario"]. -/
theorem play_game_observer_declines {W : Type} (env : Env W)
    (skip_replay network_game blindfold_replay is_unit_test : Bool) (k fuel : Nat)
    (io_type0 io_type io_type1 : io_type_t) (s0 s s1 : St W) (end_level : end_level_data)
    (hhead : loop_head env skip_replay network_game blindfold_replay is_unit_test k io_type0
      (loop_entry env s0) = some (io_type, s))
    (hvalid : env.valid s.gamestate s.world = true)
    (hmp : io_type ≠ io_type_t.IO_NONE ∨ env.ALWAYS_USE_MP_CONTROLLER = true)
    (htry : try_block env skip_replay blindfold_replay io_type s =
      (.ok (LEVEL_RESULT.OBSERVER_END, end_level), io_type1, s1))
    (hdecline :
      (env.show_message_continue (env.convert_to_start_save s1.gamestate s1.world).2).1 = true) :
    (∃ s2 added,
      play_game env io_type0 skip_replay network_game blindfold_replay is_unit_test
          (k + (fuel + 1)) s0 = some (.ok LEVEL_RESULT.OBSERVER_END, s2) ∧
        s2.trace = s.trace ++ added ∧
        ∀ e ∈ added, e.is_carryover = false) ∧
    (∀ (io_type2 : io_type_t) (s3 : St W) (end_level2 : end_level_data),
      (playmp_before_linger env skip_replay blindfold_replay io_type2 s3).1 =
          .ok (LEVEL_RESULT.OBSERVER_END, end_level2) →
      (playmp_before_linger env skip_replay blindfold_replay io_type2 s3).2.2.trace =
          s3.trace ++ [Event.expand_carryover, Event.play_scenario true] ∧
        (playmp_before_linger env skip_replay blindfold_replay io_type2
            s3).2.2.gamestate.carryover_sides_start.get "next_scenario" =
          (env.globals (playmp_before_linger env skip_replay blindfold_replay io_type2
            s3).2.2.world).next_scenario) := by
  refine ⟨?_, fun io_type2 s3 end_level2 h =>
    playmp_before_linger_observer env skip_replay blindfold_replay io_type2 s3 end_level2 h⟩
  have htrip := try_block_observer env skip_replay blindfold_replay io_type io_type1 s s1
    end_level hmp htry
  suffices hafter : ∃ s2, after_scenario env network_game is_unit_test
      LEVEL_RESULT.OBSERVER_END end_level io_type1 s1 =
        loop_step.returned (.ok LEVEL_RESULT.OBSERVER_END) s2 ∧
      Steps Event.not_carryover s1 s2 by
    obtain ⟨s2, hret, hsteps⟩ := hafter
    obtain ⟨added, htrace, hadded⟩ := htrip.trans hsteps
    refine ⟨s2, added, ?_, htrace, hadded⟩
    apply play_game_of_returned env _ _ _ _ k fuel io_type0 io_type s0 s _ _ hhead hvalid
    rw [loop_body_of_ok env _ _ _ _ io_type io_type1 s s1 _ end_level htry, hret]
  by_cases hu : is_unit_test = true
  · refine ⟨s1, ?_, Steps.refl _ _⟩
    unfold after_scenario scenario_end
    simp [hu]
  · have hu2 : is_unit_test = false := by simpa using hu
    subst hu2
    obtain ⟨s2, saves, _, hsaves, _, hworld, htrace, hend⟩ :=
      scenario_end_steps env LEVEL_RESULT.OBSERVER_END end_level io_type1 s1
    have hnone : saves = [] := by
      rw [hsaves]
      simp [game_end]
    have hs2 : Steps Event.not_carryover s1 s2 := by
      refine ⟨[Event.convert_to_start_save, Event.recorder_clear], ?_, ?_⟩
      · rw [htrace, hnone, List.append_nil]
      · intro e he
        simp only [List.mem_cons, List.mem_singleton, List.not_mem_nil, or_false] at he
        rcases he with rfl | rfl <;> rfl
    by_cases hcond : LEVEL_RESULT.OBSERVER_END = LEVEL_RESULT.QUIT ∨
        end_level.proceed_to_next_level = false ∨
        (env.convert_to_start_save s1.gamestate s1.world).1.carryover_sides_start.get
          "next_scenario" = ""
    · rw [if_pos hcond] at hend
      refine ⟨s2, ?_, hs2⟩
      unfold after_scenario
      rw [hend]
    · rw [if_neg hcond] at hend
      have hanswer : (env.show_message_continue s2.world).1 = true := by
        rw [hworld]
        exact hdecline
      have hdialog : observer_dialog env LEVEL_RESULT.OBSERVER_END s2 =
          flow.returned LEVEL_RESULT.OBSERVER_END
            { s2 with world := (env.show_message_continue s2.world).2,
                      trace := s2.trace ++ [Event.show_message_continue] } := by
        unfold observer_dialog
        simp only [if_true, hanswer]
      refine ⟨{ s2 with world := (env.show_message_continue s2.world).2,
                        trace := s2.trace ++ [Event.show_message_continue] }, ?_, ?_⟩
      · unfold after_scenario
        rw [hend]
        dsimp only
        rw [hdialog]
      · exact hs2.trans (Steps.one _ _ Event.show_message_continue rfl rfl)

/-- C7, run on a multiplayer client that observes the scenario and declines to continue:
play_game returns OBSERVER_END and the trip contains no action of store_carryover. -/
theorem play_game_observer_declines_witness :
    ∃ s2 added,
      play_game (scripted observer_script) io_type_t.IO_CLIENT false false false false
          (0 + (0 + 1)) sample_state = some (.ok LEVEL_RESULT.OBSERVER_END, s2) ∧
        s2.trace = (loop_entry (scripted observer_script) sample_state).trace ++ added ∧
        ∀ e ∈ added, e.is_carryover = false :=
  (play_game_observer_declines (scripted observer_script) false false false false 0 0
    io_type_t.IO_CLIENT io_type_t.IO_CLIENT io_type_t.IO_CLIENT sample_state
    (loop_entry (scripted observer_script) sample_state)
    (try_block (scripted observer_script) false false io_type_t.IO_CLIENT
      (loop_entry (scripted observer_script) sample_state)).2.2
    sample_end_level rfl rfl (Or.inl (by decide)) rfl rfl).1

/-- C8: whenever the try block of a trip of the loop of play_game is left by a load
failure, a game error, a map format error, a config error or a twml_exception, play_game
shows the error dialog of that exception and returns QUIT; the session state and the world
are the ones in which the exception was caught, and after the exception nothing is done
but the dialog (and one line on std::cerr for a config error): no save management, no
negotiation, no further scenario.  This holds for every IO mode and every value of
is_unit_test.  The exception of a collaborator reaches the handlers: an exception thrown by
the scenario resolver, the controller or the linger leaves the try block. -/
theorem play_game_exception_quits {W : Type} (env : Env W)
    (skip_replay network_game blindfold_replay is_unit_test : Bool) (k fuel : Nat)
    (io_type0 io_type io_type1 : io_type_t) (s0 s s1 : St W) (e : game_exception)
    (hhead : loop_head env skip_replay network_game blindfold_replay is_unit_test k io_type0
      (loop_entry env s0) = some (io_type, s))
    (hvalid : env.valid s.gamestate s.world = true)
    (htry : try_block env skip_replay blindfold_replay io_type s = (.error e, io_type1, s1))
    (hkind : e.caught_by_play_game = true) :
    (∃ added,
      play_game env io_type0 skip_replay network_game blindfold_replay is_unit_test
          (k + (fuel + 1)) s0 =
        some (.ok LEVEL_RESULT.QUIT, { s1 with trace := s1.trace ++ added }) ∧
      added =
        error_dialog e ∧
      (∃ d ∈ added, d.is_error_dialog = true) ∧
      ∀ d ∈ added, d.touches_saves = false ∧ d.starts_next_scenario = false) ∧
    (∀ (io_type2 : io_type_t) (s2 s3 : St W) (e2 : game_exception),
      resolve_scenario env s2 = (.error e2, s3) →
      try_block env skip_replay blindfold_replay io_type2 s2 = (.error e2, io_type2, s3)) ∧
    (∀ (s2 : St W) (e2 : game_exception),
      (env.play_single skip_replay
          ((s2.call env.expand_carryover).log Event.expand_carryover).gamestate
          ((s2.call env.expand_carryover).log Event.expand_carryover).world).1 = .error e2 →
      (playsingle_scenario env skip_replay s2).1 = .error e2) ∧
    (∀ (io_type2 : io_type_t) (s2 : St W) (e2 : game_exception),
      (env.play_mp skip_replay blindfold_replay (decide (io_type2 = io_type_t.IO_SERVER))
          ((s2.call env.expand_carryover).log Event.expand_carryover).gamestate
          ((s2.call env.expand_carryover).log Event.expand_carryover).world).1 = .error e2 →
      (playmp_scenario env skip_replay blindfold_replay io_type2 s2).1 = .error e2) ∧
    (∀ (s2 s3 s4 : St W) (res : LEVEL_RESULT) (end_level : end_level_data) (e2 : game_exception),
      playsingle_before_linger env skip_replay s2 = (.ok (res, end_level), s3) →
      res ≠ LEVEL_RESULT.QUIT →
      linger env s3 = linger_step.threw e2 s4 →
      playsingle_scenario env skip_replay s2 = (.error e2, s4)) ∧
    (∀ (io_type2 io_type3 : io_type_t) (s2 s3 s4 : St W) (res : LEVEL_RESULT)
        (end_level : end_level_data) (e2 : game_exception),
      playmp_before_linger env skip_replay blindfold_replay io_type2 s2 =
          (.ok (res, end_level), io_type3, s3) →
      res ≠ LEVEL_RESULT.QUIT →
      linger env s3 = linger_step.threw e2 s4 →
      playmp_scenario env skip_replay blindfold_replay io_type2 s2 = (.error e2, io_type3, s4)) := by
  refine ⟨?_, ?_, ?_, ?_, ?_, ?_⟩
  · obtain ⟨added, hhandle, hadded, hdialog, hquiet⟩ := handle_exception_caught e s1 hkind
    refine ⟨added, ?_, hadded, hdialog, hquiet⟩
    have hbody := loop_body_of_error env skip_replay network_game blindfold_replay is_unit_test
      io_type io_type1 s s1 e htry
    rw [hhandle] at hbody
    exact play_game_of_returned env _ _ _ _ k fuel io_type0 io_type s0 s _ _ hhead hvalid hbody
  · intro io_type2 s2 s3 e2 h
    unfold try_block
    rw [h]
  · intro s2 e2 h
    unfold playsingle_scenario playsingle_before_linger
    dsimp only
    rw [h]
  · intro io_type2 s2 e2 h
    unfold playmp_scenario playmp_before_linger
    dsimp only
    rw [h]
  · intro s2 s3 s4 res end_level e2 hbefore hres hl
    unfold playsingle_scenario
    rw [hbefore]
    simp only [hres, ne_eq, not_false_eq_true, if_true, hl]
  · intro io_type2 io_type3 s2 s3 s4 res end_level e2 hbefore hres hl
    unfold playmp_scenario
    rw [hbefore]
    simp only [hres, ne_eq, not_false_eq_true, if_true, hl]

/-- C8, run on a script whose scenario throws a game error, in unit-test mode: play_game
shows the dialog "Error while playing the game" and returns QUIT. -/
theorem play_game_exception_quits_witness :
    ∃ added,
      play_game (scripted error_script) io_type_t.IO_NONE false false false true (0 + (0 + 1))
          sample_state =
        some (.ok LEVEL_RESULT.QUIT,
          { (try_block (scripted error_script) false false io_type_t.IO_NONE
              (loop_entry (scripted error_script) sample_state)).2.2 with
            trace :=
              (try_block (scripted error_script) false false io_type_t.IO_NONE
                (loop_entry (scripted error_script) sample_state)).2.2.trace ++ added }) ∧
      added = [Event.show_error_message (error_message.error_while_playing "boom")] ∧
      (∃ d ∈ added, d.is_error_dialog = true) ∧
      ∀ d ∈ added, d.touches_saves = false ∧ d.starts_next_scenario = false :=
  (play_game_exception_quits (scripted error_script) false false false true 0 0
    io_type_t.IO_NONE io_type_t.IO_NONE io_type_t.IO_NONE sample_state
    (loop_entry (scripted error_script) sample_state)
    (try_block (scripted error_script) false false io_type_t.IO_NONE
      (loop_entry (scripted error_script) sample_state)).2.2
    (game_exception.game_error "boom") rfl rfl rfl rfl).1

/-- The save-management block on its own: it deletes the saves (under the current label)
exactly when the delete-saves preference is on and res is VICTORY, or res is DEFEAT and
the IO mode is SERVER or CLIENT; it writes the automatic replay save exactly when the
save-replays preference is on, the replay_save flag of the end-level data is set and the
same condition on the outcome holds; it does nothing else.  The block is followed by
convert_to_start_save and recorder.clear; in unit-test mode the body returns before it. -/
theorem save_management_fires {W : Type} (env : Env W) (res : LEVEL_RESULT)
    (end_level : end_level_data) (io_type : io_type_t) (s : St W) :
    ∃ added,
      save_management env res end_level io_type s = { s with trace := s.trace ++ added } ∧
      (∀ label, Event.clean_saves label ∈ added ↔
        (label = s.gamestate.classification.label ∧ env.delete_saves s.world = true ∧
          (res = LEVEL_RESULT.VICTORY ∨
            (res = LEVEL_RESULT.DEFEAT ∧
              (io_type = io_type_t.IO_SERVER ∨ io_type = io_type_t.IO_CLIENT))))) ∧
      (Event.replay_save ∈ added ↔
        (env.save_replays s.world = true ∧ end_level.replay_save = true ∧
          (res = LEVEL_RESULT.VICTORY ∨
            (res = LEVEL_RESULT.DEFEAT ∧
              (io_type = io_type_t.IO_SERVER ∨ io_type = io_type_t.IO_CLIENT))))) ∧
      (∀ e ∈ added,
        e = Event.clean_saves s.gamestate.classification.label ∨ e = Event.replay_save) ∧
      (∃ s2,
        (scenario_end env false res end_level io_type s = flow.returned res s2 ∨
          scenario_end env false res end_level io_type s = flow.next s2) ∧
        s2.trace = s.trace ++ added ++ [Event.convert_to_start_save, Event.recorder_clear]) ∧
      scenario_end env true res end_level io_type s = flow.returned res s := by
  obtain ⟨s2, saves, hsave, hsaves, _, _, htrace, hend⟩ :=
    scenario_end_steps env res end_level io_type s
  have hg := game_end_iff res io_type
  refine ⟨saves, hsave, ?_, ?_, ?_, ⟨s2, ?_, htrace⟩, ?_⟩
  · intro label
    rw [hsaves, ← hg]
    by_cases h1 : game_end res io_type = true <;>
      by_cases h2 : env.delete_saves s.world = true <;>
      by_cases h3 : env.save_replays s.world = true ∧ end_level.replay_save = true <;>
      simp [h1, h2, h3]
  · rw [hsaves, ← hg]
    by_cases h1 : game_end res io_type = true <;>
      by_cases h2 : env.delete_saves s.world = true <;>
      by_cases h3 : env.save_replays s.world = true <;>
      by_cases h4 : end_level.replay_save = true <;>
      simp [h1, h2, h3, h4]
  · intro e he
    rw [hsaves] at he
    by_cases h1 : game_end res io_type = true ∧ env.delete_saves s.world = true <;>
      by_cases h3 : game_end res io_type = true ∧ env.save_replays s.world = true ∧
        end_level.replay_save = true <;>
      simp [h1, h3] at he <;> tauto
  · rw [hend]
    split_ifs
    · exact Or.inl rfl
    · exact Or.inr rfl
  · unfold scenario_end
    simp

/-- C10: play_replay maps each exception of play_replay_level for which it has a handler
(load_game_failed, game_error, incorrect_map_format_error, twml_exception) to a result:
in unit-test mode the error is written to std::cerr only and the result is DEFEAT;
otherwise one error dialog is shown and the result is NONE.  When play_replay_level returns,
play_replay returns the same result after clearing the recorder and the replay data of
the session. -/
theorem play_replay_results {W : Type} (env : Env W) (is_unit_test : Bool) (s : St W) :
    (∀ res,
      (env.play_replay_level is_unit_test (replay_setup s).gamestate (replay_setup s).world).1 =
          .ok res →
      play_replay env is_unit_test s =
        (.ok res,
          { gamestate :=
              { (env.play_replay_level is_unit_test (replay_setup s).gamestate
                  (replay_setup s).world).2.1 with replay_data := config.blank },
            world :=
              (env.play_replay_level is_unit_test (replay_setup s).gamestate
                (replay_setup s).world).2.2,
            trace := (replay_setup s).trace ++
              [Event.play_replay_level, Event.recorder_clear] })) ∧
    (∀ e,
      (env.play_replay_level is_unit_test (replay_setup s).gamestate (replay_setup s).world).1 =
          .error e →
      e.caught_by_play_replay = true →
      ∃ added,
        play_replay env is_unit_test s =
          (.ok (if is_unit_test = true then LEVEL_RESULT.DEFEAT else LEVEL_RESULT.NONE),
            { gamestate :=
                (env.play_replay_level is_unit_test (replay_setup s).gamestate
                  (replay_setup s).world).2.1,
              world :=
                (env.play_replay_level is_unit_test (replay_setup s).gamestate
                  (replay_setup s).world).2.2,
              trace := (replay_setup s).trace ++ [Event.play_replay_level] ++ added }) ∧
          (is_unit_test = true → added ≠ [] ∧ ∀ d ∈ added, d.is_cerr = true) ∧
          (is_unit_test = false → ∃ d, added = [d] ∧ d.is_error_dialog = true)) ∧
    (replay_setup s).trace = s.trace := by
  refine ⟨?_, ?_, ?_⟩
  · intro res h
    unfold play_replay
    dsimp only
    rw [h]
    simp [St.log]
  · intro e h hkind
    cases e with
    | config_error m => simp [game_exception.caught_by_play_replay] at hkind
    | other w => simp [game_exception.caught_by_play_replay] at hkind
    | load_game_failed m =>
      cases is_unit_test
      · refine ⟨[Event.show_error_message (error_message.could_not_be_loaded m)], ?_, by simp,
          fun _ => ⟨_, rfl, rfl⟩⟩
        unfold play_replay
        dsimp only
        rw [h]
        simp [St.log]
      · refine ⟨[Event.cerr ("The game could not be loaded: " ++ " (game::load_game_failed) " ++ m)],
          ?_, fun _ => ⟨by simp, by simp [Event.is_cerr]⟩, by simp⟩
        unfold play_replay
        dsimp only
        rw [h]
        simp [St.log]
    | game_error m =>
      cases is_unit_test
      · refine ⟨[Event.show_error_message (error_message.error_while_playing m)], ?_, by simp,
          fun _ => ⟨_, rfl, rfl⟩⟩
        unfold play_replay
        dsimp only
        rw [h]
        simp [St.log]
      · refine ⟨[Event.cerr ("Error while playing the game: " ++ " (game::game_error) " ++ m)],
          ?_, fun _ => ⟨by simp, by simp [Event.is_cerr]⟩, by simp⟩
        unfold play_replay
        dsimp only
        rw [h]
        simp [St.log]
    | incorrect_map_format_error m =>
      cases is_unit_test
      · refine ⟨[Event.show_error_message (error_message.map_could_not_be_loaded m)], ?_,
          by simp, fun _ => ⟨_, rfl, rfl⟩⟩
        unfold play_replay
        dsimp only
        rw [h]
        simp [St.log]
      · refine ⟨[Event.cerr
          ("The game map could not be loaded: " ++ " (incorrect_map_format_error) " ++ m)],
          ?_, fun _ => ⟨by simp, by simp [Event.is_cerr]⟩, by simp⟩
        unfold play_replay
        dsimp only
        rw [h]
        simp [St.log]
    | twml_exception u d =>
      cases is_unit_test
      · refine ⟨[Event.twml_show u], ?_, by simp, fun _ => ⟨_, rfl, rfl⟩⟩
        unfold play_replay
        dsimp only
        rw [h]
        simp [St.log]
      · refine ⟨[Event.cerr ("WML Exception: " ++ u), Event.cerr ("Dev Message: " ++ d)],
          ?_, fun _ => ⟨by simp, by simp [Event.is_cerr]⟩, by simp⟩
        unfold play_replay
        dsimp only
        rw [h]
        simp [St.log]
  · unfold replay_setup
    dsimp only
    split_ifs <;> split <;> rfl

/-- C11 fails on the code: on a display that is not headless, a won scenario during whose
linger the player quits makes playsingle_scenario and playmp_scenario return QUIT from
the handler of the linger, with the linger as their last action and no set_snapshot
anywhere in the call.  When instead the scenario itself ends with QUIT, the same function
does call set_snapshot before it returns QUIT. -/
theorem scenario_linger_quit_skips_snapshot :
    (playsingle_scenario (scripted linger_quit_script) false sample_state).1 =
        .ok (LEVEL_RESULT.QUIT, sample_end_level) ∧
      (playsingle_scenario (scripted linger_quit_script) false sample_state).2.trace =
        [Event.expand_carryover, Event.play_scenario false,
          Event.store_carryover_called LEVEL_RESULT.VICTORY, Event.report_victory 60 104 5 3 15,
          Event.show_transient_message "Victory"
            [report_item.text "<b>You have emerged victorious!</b>\n\n",
              report_item.text "\n<b>ann</b>\n", report_item.victory 60 104 5 3 15],
          Event.maybe_linger] ∧
      Event.set_snapshot ∉
        (playsingle_scenario (scripted linger_quit_script) false sample_state).2.trace ∧
      (playmp_scenario (scripted linger_quit_script) false false io_type_t.IO_SERVER
          sample_state).1 = .ok (LEVEL_RESULT.QUIT, sample_end_level) ∧
      (playmp_scenario (scripted linger_quit_script) false false io_type_t.IO_SERVER
          sample_state).2.2.trace =
        [Event.expand_carryover, Event.play_scenario true,
          Event.store_carryover_called LEVEL_RESULT.VICTORY, Event.report_victory 60 104 5 3 15,
          Event.show_transient_message "Victory"
            [report_item.text "<b>You have emerged victorious!</b>\n\n",
              report_item.text "\n<b>ann</b>\n", report_item.victory 60 104 5 3 15],
          Event.maybe_linger] ∧
      Event.set_snapshot ∉
        (playmp_scenario (scripted linger_quit_script) false false io_type_t.IO_SERVER
          sample_state).2.2.trace ∧
      (playsingle_scenario (scripted quit_script) false sample_state).1 =
        .ok (LEVEL_RESULT.QUIT, sample_end_level) ∧
      (playsingle_scenario (scripted quit_script) false sample_state).2.trace =
        [Event.expand_carryover, Event.play_scenario false, Event.set_snapshot] :=
  ⟨rfl, by decide, by decide, rfl, by decide, by decide, rfl, by decide⟩

/-- C9: in play_game outside unit-test mode, take any trip of the loop in which the
scenario function returns the outcome `res`.  Right after the scenario the trip performs
the save management, then convert_to_start_save and recorder.clear, then the rest of the
body; it ends where play_game returns or where the loop tests its condition again.  The
save management deletes the saves (under the current label) exactly when the delete-saves
preference is on and res is VICTORY, or res is DEFEAT and the IO mode is SERVER or CLIENT;
it writes the automatic replay save exactly when the save-replays preference is on, the
replay_save flag of the end-level data is set and the same condition on the outcome holds;
it does nothing else, and the rest of the trip neither deletes saves nor writes a replay
save.  The IO mode after the scenario is IO_NONE exactly when the trip started in
IO_NONE. -/
theorem play_game_save_management {W : Type} (env : Env W)
    (skip_replay network_game blindfold_replay : Bool) (k fuel : Nat)
    (io_type0 io_type io_type1 : io_type_t) (s0 s s1 : St W) (res : LEVEL_RESULT)
    (end_level : end_level_data)
    (hhead : loop_head env skip_replay network_game blindfold_replay false k io_type0
      (loop_entry env s0) = some (io_type, s))
    (hvalid : env.valid s.gamestate s.world = true)
    (htry : try_block env skip_replay blindfold_replay io_type s =
      (.ok (res, end_level), io_type1, s1)) :
    ∃ (s3 : St W) (saves rest : List Event),
      s3.trace =
          s1.trace ++ saves ++ [Event.convert_to_start_save, Event.recorder_clear] ++ rest ∧
      (∀ label, Event.clean_saves label ∈ saves ↔
        (label = s1.gamestate.classification.label ∧ env.delete_saves s1.world = true ∧
          (res = LEVEL_RESULT.VICTORY ∨
            (res = LEVEL_RESULT.DEFEAT ∧
              (io_type1 = io_type_t.IO_SERVER ∨ io_type1 = io_type_t.IO_CLIENT))))) ∧
      (Event.replay_save ∈ saves ↔
        (env.save_replays s1.world = true ∧ end_level.replay_save = true ∧
          (res = LEVEL_RESULT.VICTORY ∨
            (res = LEVEL_RESULT.DEFEAT ∧
              (io_type1 = io_type_t.IO_SERVER ∨ io_type1 = io_type_t.IO_CLIENT))))) ∧
      (∀ e ∈ saves,
        e = Event.clean_saves s1.gamestate.classification.label ∨ e = Event.replay_save) ∧
      (∀ e ∈ rest, e.is_save_management = false) ∧
      (io_type1 = io_type_t.IO_NONE ↔ io_type = io_type_t.IO_NONE) ∧
      ((∃ r, play_game env io_type0 skip_replay network_game blindfold_replay false
            (k + (fuel + 1)) s0 = some (.ok r, s3)) ∨
        loop_head env skip_replay network_game blindfold_replay false (k + 1) io_type0
          (loop_entry env s0) = some (io_type1, s3)) := by
  obtain ⟨s2, saves, _, hsaves, _, _, htrace, hend⟩ :=
    scenario_end_steps env res end_level io_type1 s1
  have hg := game_end_iff res io_type1
  have hio : io_type1 = io_type_t.IO_NONE ↔ io_type = io_type_t.IO_NONE := by
    have h := try_block_io_none env skip_replay blindfold_replay io_type s
    rw [htry] at h
    exact h
  have hclean : ∀ label, Event.clean_saves label ∈ saves ↔
      (label = s1.gamestate.classification.label ∧ env.delete_saves s1.world = true ∧
        (res = LEVEL_RESULT.VICTORY ∨
          (res = LEVEL_RESULT.DEFEAT ∧
            (io_type1 = io_type_t.IO_SERVER ∨ io_type1 = io_type_t.IO_CLIENT)))) := by
    intro label
    rw [hsaves, ← hg]
    by_cases h1 : game_end res io_type1 = true <;>
      by_cases h2 : env.delete_saves s1.world = true <;>
      by_cases h3 : env.save_replays s1.world = true ∧ end_level.replay_save = true <;>
      simp [h1, h2, h3]
  have hreplay : Event.replay_save ∈ saves ↔
      (env.save_replays s1.world = true ∧ end_level.replay_save = true ∧
        (res = LEVEL_RESULT.VICTORY ∨
          (res = LEVEL_RESULT.DEFEAT ∧
            (io_type1 = io_type_t.IO_SERVER ∨ io_type1 = io_type_t.IO_CLIENT)))) := by
    rw [hsaves, ← hg]
    by_cases h1 : game_end res io_type1 = true <;>
      by_cases h2 : env.delete_saves s1.world = true <;>
      by_cases h3 : env.save_replays s1.world = true <;>
      by_cases h4 : end_level.replay_save = true <;>
      simp [h1, h2, h3, h4]
  have honly : ∀ e ∈ saves,
      e = Event.clean_saves s1.gamestate.classification.label ∨ e = Event.replay_save := by
    intro e he
    rw [hsaves] at he
    by_cases h1 : game_end res io_type1 = true ∧ env.delete_saves s1.world = true <;>
      by_cases h3 : game_end res io_type1 = true ∧ env.save_replays s1.world = true ∧
        end_level.replay_save = true <;>
      simp [h1, h3] at he <;> tauto
  have hbody := loop_body_of_ok env skip_replay network_game blindfold_replay false
    io_type io_type1 s s1 res end_level htry
  by_cases hcond : res = LEVEL_RESULT.QUIT ∨ end_level.proceed_to_next_level = false ∨
      (env.convert_to_start_save s1.gamestate s1.world).1.carryover_sides_start.get
        "next_scenario" = ""
  · rw [if_pos hcond] at hend
    refine ⟨s2, saves, [], by rw [htrace, List.append_nil], hclean, hreplay, honly,
      by simp, hio, Or.inl ⟨res, ?_⟩⟩
    apply play_game_of_returned env _ _ _ _ k fuel io_type0 io_type s0 s _ _ hhead hvalid
    rw [hbody]
    unfold after_scenario
    rw [hend]
  · rw [if_neg hcond] at hend
    obtain ⟨s3, ⟨rest, hrest, hquiet⟩, hor⟩ :=
      after_scenario_end env network_game res end_level io_type1 s1 s2 hend
    refine ⟨s3, saves, rest, by rw [hrest, htrace], hclean, hreplay, honly, hquiet, hio, ?_⟩
    rcases hor with ⟨r, hr⟩ | hagain
    · left
      exact ⟨r, play_game_of_returned env _ _ _ _ k fuel io_type0 io_type s0 s _ _ hhead
        hvalid (by rw [hbody, hr])⟩
    · right
      exact loop_head_snoc env _ _ _ _ k io_type0 (loop_entry env s0) io_type io_type1 s s3
        hhead hvalid (by rw [hbody, hagain])

/-- C9, run on the sample script (a won local scenario with both preferences on): the
save management deletes the saves under "TC-one" and writes the replay save, right after
the snapshot of the scenario and before convert_to_start_save. -/
theorem play_game_save_management_witness :
    (play_game (scripted sample_script) io_type_t.IO_NONE false false false false 2
        sample_state).map (fun r => r.2.trace.drop 7) =
      some
        [Event.clean_saves "TC-one", Event.replay_save, Event.convert_to_start_save,
          Event.recorder_clear, Event.expand_scenario,
          Event.show_error_message (error_message.unknown_scenario "two")] ∧
    ∃ (s3 : St Nat) (saves rest : List Event),
      s3.trace =
          (try_block (scripted sample_script) false false io_type_t.IO_NONE
            (loop_entry (scripted sample_script) sample_state)).2.2.trace ++ saves ++
            [Event.convert_to_start_save, Event.recorder_clear] ++ rest ∧
      (∀ label, Event.clean_saves label ∈ saves ↔
        (label = (try_block (scripted sample_script) false false io_type_t.IO_NONE
            (loop_entry (scripted sample_script) sample_state)).2.2.gamestate.classification.label ∧
          (scripted sample_script).delete_saves
            (try_block (scripted sample_script) false false io_type_t.IO_NONE
              (loop_entry (scripted sample_script) sample_state)).2.2.world = true ∧
          (LEVEL_RESULT.VICTORY = LEVEL_RESULT.VICTORY ∨
            (LEVEL_RESULT.VICTORY = LEVEL_RESULT.DEFEAT ∧
              (io_type_t.IO_NONE = io_type_t.IO_SERVER ∨
                io_type_t.IO_NONE = io_type_t.IO_CLIENT))))) ∧
      (Event.replay_save ∈ saves ↔
        ((scripted sample_script).save_replays
            (try_block (scripted sample_script) false false io_type_t.IO_NONE
              (loop_entry (scripted sample_script) sample_state)).2.2.world = true ∧
          sample_end_level.replay_save = true ∧
          (LEVEL_RESULT.VICTORY = LEVEL_RESULT.VICTORY ∨
            (LEVEL_RESULT.VICTORY = LEVEL_RESULT.DEFEAT ∧
              (io_type_t.IO_NONE = io_type_t.IO_SERVER ∨
                io_type_t.IO_NONE = io_type_t.IO_CLIENT))))) ∧
      (∀ e ∈ saves,
        e = Event.clean_saves
            (try_block (scripted sample_script) false false io_type_t.IO_NONE
              (loop_entry (scripted sample_script)
                sample_state)).2.2.gamestate.classification.label ∨
          e = Event.replay_save) ∧
      (∀ e ∈ rest, e.is_save_management = false) ∧
      (io_type_t.IO_NONE = io_type_t.IO_NONE ↔ io_type_t.IO_NONE = io_type_t.IO_NONE) ∧
      ((∃ r, play_game (scripted sample_script) io_type_t.IO_NONE false false false false
            (0 + (0 + 1)) sample_state = some (.ok r, s3)) ∨
        loop_head (scripted sample_script) false false false false (0 + 1) io_type_t.IO_NONE
          (loop_entry (scripted sample_script) sample_state) = some (io_type_t.IO_NONE, s3)) :=
  ⟨by decide,
    play_game_save_management (scripted sample_script) false false false 0 0
      io_type_t.IO_NONE io_type_t.IO_NONE io_type_t.IO_NONE sample_state
      (loop_entry (scripted sample_script) sample_state)
      (try_block (scripted sample_script) false false io_type_t.IO_NONE
        (loop_entry (scripted sample_script) sample_state)).2.2
      LEVEL_RESULT.VICTORY sample_end_level rfl rfl rfl⟩

end Wesnoth
